import Mathlib

/-!
The `aptly mirror` commands (`cmd_mirror.go`).

A shallow embedding of the mirror sub-commands of aptly: `getVerifier`, the
`keyRingsFlag` accumulator and the five commands `list`, `create`, `show`,
`update` and `drop`.

The commands drive collaborators that live in other packages (`debian`,
`utils`, `commander`, the Go standard library).  Those are taken as
parameters, gathered in `Env`; every theorem below holds for every
implementation of them.  Each command threads a `Run`: the persisted mirror
collection, the rest of the world (snapshot collection, package collection,
package pool, network), the chunks written to standard output, and the log of
the calls made to the collaborators, each with the error it returned.

A Go `error` is represented by its message: `none` is `nil`, `some msg` is an
error whose `Error()` text is `msg`.
-/

namespace Aptly

/-- A Go `error` value: `none` is `nil`, `some msg` an error with text `msg`. -/
abbrev GoError := Option String

/-- The exported fields of `debian.RemoteRepo` read by the commands.  `T` is
`time.Time`; `X` stands for the unexported part of the record (package
references, release files). -/
structure RemoteRepo (X T : Type) where
  Name : String
  ArchiveRoot : String
  Distribution : String
  Components : List String
  Architectures : List String
  DownloadSources : Bool
  LastDownloadDate : T
  Meta : List (String × String)
  unexported : X

/-- One call made by a command to a collaborator, with its arguments and, for
the fallible ones, the error it returned. -/
inductive Call (X T V : Type) where
  | Usage
  | Len
  | ForEach
  | NewRemoteRepo (name url distribution : String) (components architectures : List String)
      (downloadSources : Bool) (err : GoError)
  | ByName (name : String) (err : GoError)
  | LoadComplete (repo : RemoteRepo X T) (err : GoError)
  | AddKeyring (keyRing : String)
  | InitKeyring (err : GoError)
  | Fetch (repo : RemoteRepo X T) (verifier : Option V) (err : GoError)
  | Download (repo : RemoteRepo X T) (ignoreMismatch : Bool) (err : GoError)
  | Add (repo : RemoteRepo X T) (err : GoError)
  | Update (repo : RemoteRepo X T) (err : GoError)
  | Drop (repo : RemoteRepo X T) (err : GoError)
  | ByRemoteRepoSource (repo : RemoteRepo X T)
  | NumPackages (repo : RemoteRepo X T)
  | RefList (repo : RemoteRepo X T)
  | ListPackagesRefList

namespace Call

variable {X T V : Type}

/-- The error returned by a logged call (`nil` for the infallible ones). -/
def err : Call X T V → GoError
  | NewRemoteRepo _ _ _ _ _ _ e => e
  | ByName _ e => e
  | LoadComplete _ e => e
  | InitKeyring e => e
  | Fetch _ _ e => e
  | Download _ _ e => e
  | Add _ e => e
  | Update _ e => e
  | Drop _ e => e
  | _ => none

/-- The fallible operations of `RemoteRepoCollection`:
`Add`, `ByName`, `LoadComplete`, `Update`, `Drop`. -/
def isCollectionOp : Call X T V → Bool
  | ByName _ _ => true
  | LoadComplete _ _ => true
  | Add _ _ => true
  | Update _ _ => true
  | Drop _ _ => true
  | _ => false

/-- Is the call `repoCollection.Add`? -/
def isAdd : Call X T V → Bool
  | Add _ _ => true
  | _ => false

/-- Is the call `repoCollection.Update`? -/
def isUpdate : Call X T V → Bool
  | Update _ _ => true
  | _ => false

/-- Is the call `repoCollection.Drop`? -/
def isDrop : Call X T V → Bool
  | Drop _ _ => true
  | _ => false

/-- Is the call `repo.Download`? -/
def isDownload : Call X T V → Bool
  | Download _ _ _ => true
  | _ => false

/-- Is the call `snapshotCollection.ByRemoteRepoSource`? -/
def isByRemoteRepoSource : Call X T V → Bool
  | ByRemoteRepoSource _ => true
  | _ => false

/-- Is the call `repo.NumPackages()` or `repo.RefList()`? -/
def isPackageData : Call X T V → Bool
  | NumPackages _ => true
  | RefList _ => true
  | _ => false

end Call

/-- The collaborators of the commands, none of which is defined in
`cmd_mirror.go`.
* `X`: unexported state of a `RemoteRepo`; `T`: `time.Time`;
* `V`: `utils.GpgVerifier`; `S`: `debian.Snapshot`; `L`: `debian.PackageRefList`;
* `C`: the persisted `RemoteRepoCollection`;
* `W`: the rest of the world reachable through `context` (snapshot collection,
  package collection, package pool, downloader).

`ByName`, `LoadComplete`, `Len`, `ForEach` and `ByRemoteRepoSource` are
queries: `ByName` returns the repo or an error, `LoadComplete` returns the
hydrated repo or an error, `ForEach` returns the repos it passes to a handler
that never fails.  `Add`, `Update` and `Drop` return an error and the
collection they leave behind, which may differ from the one they were given
even when they fail; they leave the repo they are given as it is.  `Fetch`
and `Download` receive the downloader and the package stores but not the
mirror collection; they return an error, the repo as they leave it, and the
world as they leave it. -/
structure Env (X T V S L C W : Type) where
  IsZero : T → Bool
  Format : T → String → String
  StrMapSortedKeys : List (String × String) → List String
  NewGpgVerifier : V
  AddKeyring : V → String → V
  InitKeyring : V → GoError × V
  NewRemoteRepo : String → String → String → List String → List String → Bool →
    Except String (RemoteRepo X T)
  RepoString : RemoteRepo X T → String
  NumPackages : RemoteRepo X T → Int
  RefList : RemoteRepo X T → L
  Fetch : W → RemoteRepo X T → Option V → GoError × RemoteRepo X T × W
  Download : W → RemoteRepo X T → Bool → GoError × RemoteRepo X T × W
  Len : C → Int
  ForEach : C → List (RemoteRepo X T)
  ByName : C → String → Except String (RemoteRepo X T)
  LoadComplete : C → RemoteRepo X T → Except String (RemoteRepo X T)
  Add : C → RemoteRepo X T → GoError × C
  Update : C → RemoteRepo X T → GoError × C
  Drop : C → RemoteRepo X T → GoError × C
  ByRemoteRepoSource : W → RemoteRepo X T → List S
  SnapshotString : S → String
  ListPackagesRefList : W → L → List String

/-- The state threaded through a command. -/
structure Run (X T V C W : Type) where
  repoCollection : C
  world : W
  stdout : List String
  calls : List (Call X T V)

namespace Run

variable {X T V C W : Type}

/-- A run that has not started: nothing printed, nothing called. -/
def start (c : C) (w : W) : Run X T V C W :=
  { repoCollection := c, world := w, stdout := [], calls := [] }

/-- Record a call to a collaborator. -/
def log (r : Run X T V C W) (c : Call X T V) : Run X T V C W :=
  { r with calls := r.calls ++ [c] }

/-- Record the calls made by a helper, in order. -/
def logAll (r : Run X T V C W) (cs : List (Call X T V)) : Run X T V C W :=
  { r with calls := r.calls ++ cs }

/-- Write one formatted chunk to standard output (`fmt.Printf`). -/
def printf (r : Run X T V C W) (s : String) : Run X T V C W :=
  { r with stdout := r.stdout ++ [s] }

end Run

/-- Process-wide settings read by the commands: `utils.Config` and
`context.architecturesList`. -/
structure Config where
  GpgDisableVerify : Bool
  DownloadSourcePackages : Bool
  architecturesList : List String

/-- The accumulator behind the repeatable `-keyring` flag. -/
structure keyRingsFlag where
  keyRings : List String
  deriving DecidableEq, Repr

/-- `Set` appends the value and returns `nil`. -/
def keyRingsFlag.Set (k : keyRingsFlag) (value : String) : GoError × keyRingsFlag :=
  (none, { keyRings := k.keyRings ++ [value] })

/-- `Get` returns the accumulated slice. -/
def keyRingsFlag.Get (k : keyRingsFlag) : List String :=
  k.keyRings

/-- `String` is `strings.Join(k.keyRings, ",")`. -/
def keyRingsFlag.String (k : keyRingsFlag) : String :=
  ",".intercalate k.keyRings

/-- The package-level `var keyRings = keyRingsFlag{}`. -/
def keyRings : keyRingsFlag :=
  { keyRings := [] }

/-- Call `Set` on each value in turn, as flag parsing does for every
occurrence of `-keyring`, collecting the returned errors. -/
def setAll (k : keyRingsFlag) (values : List String) : List GoError × keyRingsFlag :=
  values.foldl (fun acc v => (acc.1 ++ [(acc.2.Set v).1], (acc.2.Set v).2)) ([], k)

/-- The flag values of a `commander.Command`, as read through
`cmd.Flag.Lookup(...).Value.Get()`; `keyRings` is the package-level
`keyRings` variable bound to `-keyring`. -/
structure Command where
  ignoreSignatures : Bool
  withSources : Bool
  withPackages : Bool
  ignoreChecksums : Bool
  force : Bool
  keyRings : keyRingsFlag

section Commands

variable {X T V S L C W : Type}

/-- `getVerifier`: no verifier when verification is switched off, otherwise a
`GpgVerifier` with every keyring added and its keyring initialised.  It reads
the flags, the configuration and the `keyRings` accumulator only; the result
is the Go pair `(verifier, err)` together with the calls made. -/
def getVerifier (env : Env X T V S L C W) (cfg : Config) (cmd : Command) :
    (Option V × GoError) × List (Call X T V) :=
  if cfg.GpgDisableVerify || cmd.ignoreSignatures then
    ((none, none), [])
  else
    let looped := cmd.keyRings.keyRings.foldl
      (fun acc keyRing => (env.AddKeyring acc.1 keyRing, acc.2 ++ [Call.AddKeyring keyRing]))
      (env.NewGpgVerifier, [])
    let verifier := looped.1
    let calls := looped.2
    match env.InitKeyring verifier with
    | (some e, _) => ((none, some e), calls ++ [.InitKeyring (some e)])
    | (none, verifier) => ((some verifier, none), calls ++ [.InitKeyring none])

/-- How `aptlyMirrorList` ends: it returns an error value, or a slice index
is out of range and the program panics. -/
inductive Outcome where
  | returned (err : GoError)
  | panic
  deriving DecidableEq, Repr

/-- `sort.Strings`: the strings in ascending order.  Go compares strings
byte by byte, which on UTF-8 text is the order of code points that `≤` on
`String` follows. -/
def sortStrings (l : List String) : List String :=
  l.insertionSort (fun a b => a ≤ b)

/-- The closure passed to `ForEach` by `aptlyMirrorList`:
`repos[i] = repo.String(); i++`.  The accumulator is the slice and `i`, or
`none` once an index was out of range. -/
def listHandler (env : Env X T V S L C W) (acc : Option (List String × Nat))
    (repo : RemoteRepo X T) : Option (List String × Nat) :=
  match acc with
  | none => none
  | some (repos, i) =>
    if i < repos.length then some (repos.set i (env.RepoString repo), i + 1) else none

/-- `aptly mirror list`. -/
def aptlyMirrorList (env : Env X T V S L C W) (args : List String)
    (r : Run X T V C W) : Outcome × Run X T V C W :=
  if args.length ≠ 0 then
    (.returned none, r.log .Usage)
  else
    let r := r.log .Len
    if env.Len r.repoCollection > 0 then
      let r := r.printf "List of mirrors:\n"
      let r := r.log .Len
      let repos := List.replicate (env.Len r.repoCollection).toNat ""
      let r := r.log .ForEach
      match (env.ForEach r.repoCollection).foldl (listHandler env) (some (repos, 0)) with
      | none => (.panic, r)
      | some (repos, _) =>
        let repos := sortStrings repos
        let r := repos.foldl (fun r repo => r.printf (" * " ++ repo ++ "\n")) r
        let r := r.printf
          "\nTo get more information about mirror, run `aptly mirror show <name>`.\n"
        (.returned none, r)
    else
      (.returned none, r.printf "No mirrors found, create one with `aptly mirror create ...`.\n")

/-- `aptly mirror create <name> <archive url> <distribution> [<component1> ...]`. -/
def aptlyMirrorCreate (env : Env X T V S L C W) (cfg : Config) (cmd : Command)
    (args : List String) (r : Run X T V C W) : GoError × Run X T V C W :=
  match args with
  | name :: url :: distribution :: components =>
    let downloadSources := cfg.DownloadSourcePackages || cmd.withSources
    match env.NewRemoteRepo name url distribution components cfg.architecturesList
        downloadSources with
    | .error e =>
      (some ("unable to create mirror: " ++ e),
        r.log (.NewRemoteRepo name url distribution components cfg.architecturesList
          downloadSources (some e)))
    | .ok repo =>
      let r := r.log (.NewRemoteRepo name url distribution components cfg.architecturesList
        downloadSources none)
      match getVerifier env cfg cmd with
      | ((_, some e), calls) =>
        (some ("unable to initialize GPG verifier: " ++ e), r.logAll calls)
      | ((verifier, none), calls) =>
        let r := r.logAll calls
        match env.Fetch r.world repo verifier with
        | (some e, _, w) =>
          (some ("unable to fetch mirror: " ++ e),
            { r with world := w }.log (.Fetch repo verifier (some e)))
        | (none, fetched, w) =>
          let r := { r with world := w }.log (.Fetch repo verifier none)
          match env.Add r.repoCollection fetched with
          | (some e, c) =>
            (some ("unable to add mirror: " ++ e),
              { r with repoCollection := c }.log (.Add fetched (some e)))
          | (none, c) =>
            let r := { r with repoCollection := c }.log (.Add fetched none)
            let r := r.printf ("\nMirror " ++ env.RepoString fetched ++
              " successfully added.\nYou can run \x27aptly mirror update " ++ fetched.Name ++
              "\x27 to download repository contents.\n")
            (none, r)
  | _ => (none, r.log .Usage)

/-- `aptly mirror show <name>`. -/
def aptlyMirrorShow (env : Env X T V S L C W) (cmd : Command)
    (args : List String) (r : Run X T V C W) : GoError × Run X T V C W :=
  match args with
  | [name] =>
    match env.ByName r.repoCollection name with
    | .error e => (some ("unable to show: " ++ e), r.log (.ByName name (some e)))
    | .ok found =>
      let r := r.log (.ByName name none)
      match env.LoadComplete r.repoCollection found with
      | .error e => (some ("unable to show: " ++ e), r.log (.LoadComplete found (some e)))
      | .ok repo =>
        let r := r.log (.LoadComplete found none)
        let r := r.printf ("Name: " ++ repo.Name ++ "\n")
        let r := r.printf ("Archive Root URL: " ++ repo.ArchiveRoot ++ "\n")
        let r := r.printf ("Distribution: " ++ repo.Distribution ++ "\n")
        let r := r.printf ("Components: " ++ ", ".intercalate repo.Components ++ "\n")
        let r := r.printf ("Architectures: " ++ ", ".intercalate repo.Architectures ++ "\n")
        let downloadSources := if repo.DownloadSources then "yes" else "no"
        let r := r.printf ("Download Sources: " ++ downloadSources ++ "\n")
        let r :=
          if env.IsZero repo.LastDownloadDate then
            r.printf "Last update: never\n"
          else
            let r := r.printf ("Last update: " ++
              env.Format repo.LastDownloadDate "2006-01-02 15:04:05 MST" ++ "\n")
            let r := r.log (.NumPackages repo)
            r.printf ("Number of packages: " ++ toString (env.NumPackages repo) ++ "\n")
        let r := r.printf "\nInformation from release file:\n"
        let r := (env.StrMapSortedKeys repo.Meta).foldl
          (fun r k => r.printf (k ++ ": " ++ (repo.Meta.lookup k).getD "" ++ "\n")) r
        let withPackages := cmd.withPackages
        let r :=
          if withPackages then
            if env.IsZero repo.LastDownloadDate then
              r.printf "Unable to show package list, mirror hasn\x27t been downloaded yet.\n"
            else
              let r := r.log (.RefList repo)
              let r := r.log .ListPackagesRefList
              { r with stdout := r.stdout ++ env.ListPackagesRefList r.world (env.RefList repo) }
          else
            r
        (none, r)
  | _ => (none, r.log .Usage)

/-- `aptly mirror update <name>`. -/
def aptlyMirrorUpdate (env : Env X T V S L C W) (cfg : Config) (cmd : Command)
    (args : List String) (r : Run X T V C W) : GoError × Run X T V C W :=
  match args with
  | [name] =>
    match env.ByName r.repoCollection name with
    | .error e => (some ("unable to update: " ++ e), r.log (.ByName name (some e)))
    | .ok found =>
      let r := r.log (.ByName name none)
      match env.LoadComplete r.repoCollection found with
      | .error e => (some ("unable to update: " ++ e), r.log (.LoadComplete found (some e)))
      | .ok repo =>
        let r := r.log (.LoadComplete found none)
        let ignoreMismatch := cmd.ignoreChecksums
        match getVerifier env cfg cmd with
        | ((_, some e), calls) =>
          (some ("unable to initialize GPG verifier: " ++ e), r.logAll calls)
        | ((verifier, none), calls) =>
          let r := r.logAll calls
          match env.Fetch r.world repo verifier with
          | (some e, _, w) =>
            (some ("unable to update: " ++ e),
              { r with world := w }.log (.Fetch repo verifier (some e)))
          | (none, fetched, w) =>
            let r := { r with world := w }.log (.Fetch repo verifier none)
            match env.Download r.world fetched ignoreMismatch with
            | (some e, _, w) =>
              (some ("unable to update: " ++ e),
                { r with world := w }.log (.Download fetched ignoreMismatch (some e)))
            | (none, downloaded, w) =>
              let r := { r with world := w }.log (.Download fetched ignoreMismatch none)
              match env.Update r.repoCollection downloaded with
              | (some e, c) =>
                (some ("unable to update: " ++ e),
                  { r with repoCollection := c }.log (.Update downloaded (some e)))
              | (none, c) =>
                let r := { r with repoCollection := c }.log (.Update downloaded none)
                let r := r.printf ("\nMirror `" ++ downloaded.Name ++
                  "` has been successfully updated.\n")
                (none, r)
  | _ => (none, r.log .Usage)

/-- The end of `aptlyMirrorDrop`, reached when the snapshot guard did not
return: `repoCollection.Drop(repo)` and the confirmation. -/
def dropRepo (env : Env X T V S L C W) (repo : RemoteRepo X T)
    (r : Run X T V C W) : GoError × Run X T V C W :=
  match env.Drop r.repoCollection repo with
  | (some e, c) =>
    (some ("unable to drop: " ++ e), { r with repoCollection := c }.log (.Drop repo (some e)))
  | (none, c) =>
    let r := { r with repoCollection := c }.log (.Drop repo none)
    let r := r.printf ("Mirror `" ++ repo.Name ++ "` has been removed.\n")
    (none, r)

/-- `aptly mirror drop <name>`. -/
def aptlyMirrorDrop (env : Env X T V S L C W) (cmd : Command)
    (args : List String) (r : Run X T V C W) : GoError × Run X T V C W :=
  match args with
  | [name] =>
    match env.ByName r.repoCollection name with
    | .error e => (some ("unable to drop: " ++ e), r.log (.ByName name (some e)))
    | .ok repo =>
      let r := r.log (.ByName name none)
      let force := cmd.force
      if !force then
        let r := r.log (.ByRemoteRepoSource repo)
        let snapshots := env.ByRemoteRepoSource r.world repo
        if snapshots.length > 0 then
          let r := r.printf ("Mirror `" ++ repo.Name ++
            "` was used to create following snapshots:\n")
          let r := snapshots.foldl
            (fun r snapshot => r.printf (" * " ++ env.SnapshotString snapshot ++ "\n")) r
          (some "won\x27t delete mirror with snapshots, use -force to override", r)
        else
          dropRepo env repo r
      else
        dropRepo env repo r
  | _ => (none, r.log .Usage)

end Commands

/-! ## An in-memory implementation of the collaborators -/

/-- A mirror record with no unexported state and a numeric download date. -/
def mkRepo (name : String) (date : Nat) : RemoteRepo Unit Nat :=
  { Name := name, ArchiveRoot := "http://mirror.yandex.ru/debian/", Distribution := "wheezy",
    Components := ["main"], Architectures := ["amd64"], DownloadSources := false,
    LastDownloadDate := date, Meta := [("Origin", "Debian")], unexported := () }

/-- A small in-memory world: the collection is a list of mirrors, the rest of
the world is the list of snapshots with the name of their source mirror, a
verifier is the list of its keyrings, and a keyring or an archive URL named
`"bad"` makes `InitKeyring`, respectively `Fetch`, fail. -/
def memEnv : Env Unit Nat (List String) String (List String)
    (List (RemoteRepo Unit Nat)) (List (String × String)) where
  IsZero t := t == 0
  Format t _ := toString t
  StrMapSortedKeys m := (m.map Prod.fst).insertionSort (fun a b => a ≤ b)
  NewGpgVerifier := []
  AddKeyring v k := v ++ [k]
  InitKeyring v := if "bad" ∈ v then (some "gpg: keyring bad not found", v) else (none, v)
  NewRemoteRepo name url dist comps archs src :=
    if name = "" then .error "empty name" else
      .ok { Name := name, ArchiveRoot := url, Distribution := dist, Components := comps,
            Architectures := archs, DownloadSources := src, LastDownloadDate := 0,
            Meta := [], unexported := () }
  RepoString repo := "[" ++ repo.Name ++ "]: " ++ repo.ArchiveRoot ++ " " ++ repo.Distribution
  NumPackages _ := 2
  RefList _ := ["A_1.0", "B_2.0"]
  Fetch w repo _ :=
    if repo.ArchiveRoot = "bad" then (some "HTTP code 404", repo, w)
    else (none, { repo with Meta := [("Origin", "Debian")] }, w)
  Download w repo _ :=
    if repo.Distribution = "bad" then (some "checksum mismatch", repo, w)
    else (none, { repo with LastDownloadDate := 1 }, w)
  Len c := c.length
  ForEach c := c
  ByName c name :=
    match c.find? (fun repo => repo.Name == name) with
    | some repo => .ok repo
    | none => .error ("mirror with name " ++ name ++ " not found")
  LoadComplete _ repo := .ok repo
  Add c repo :=
    if c.any (fun r => r.Name == repo.Name) then
      (some ("mirror with name " ++ repo.Name ++ " already exists"), c)
    else (none, c ++ [repo])
  Update c repo := (none, c.map (fun r => if r.Name == repo.Name then repo else r))
  Drop c repo := (none, c.filter (fun r => r.Name != repo.Name))
  ByRemoteRepoSource w repo := (w.filter (fun s => s.2 == repo.Name)).map Prod.fst
  SnapshotString s := "[" ++ s ++ "]"
  ListPackagesRefList _ l := l.map (fun p => "  " ++ p ++ "\n")

/-- Flags as the flag sets declare them: everything off, no keyring. -/
def noFlags : Command :=
  { ignoreSignatures := false, withSources := false, withPackages := false,
    ignoreChecksums := false, force := false, keyRings := keyRings }

/-- The default configuration. -/
def defaultConfig : Config :=
  { GpgDisableVerify := false, DownloadSourcePackages := false, architecturesList := ["amd64"] }

/-- One mirror, `wheezy-main`, from which the snapshot `snap1` was created. -/
def oneMirror : Run Unit Nat (List String) (List (RemoteRepo Unit Nat)) (List (String × String)) :=
  Run.start [mkRepo "wheezy-main" 0] [("snap1", "wheezy-main")]

/-! ## Vocabulary of the claims -/

section Vocabulary

variable {X T V S L C W : Type}

/-- The text `sub` occurs in the message `msg`. -/
def Contains (msg sub : String) : Prop :=
  sub.data <:+: msg.data

instance (msg sub : String) : Decidable (Contains msg sub) :=
  inferInstanceAs (Decidable (sub.data <:+: msg.data))

/-- Every collection operation of the run that returned an error `e` is
surfaced: the command returns a non-nil error whose message contains `e`,
and no collection operation is called after the failed one. -/
def SurfacesCollectionErrors (res : GoError × Run X T V C W) : Prop :=
  ∀ pre call post e, res.2.calls = pre ++ call :: post →
    call.isCollectionOp = true → call.err = some e →
      (∃ msg, res.1 = some msg ∧ Contains msg e) ∧ post.any Call.isCollectionOp = false

/-- The five steps of `aptlyMirrorUpdate` that precede `Update` all
succeed, each on what the previous one delivered: `ByName` finds `found`,
`LoadComplete` hydrates it into `repo`, `getVerifier` returns `verifier`
without error, `Fetch` turns `repo` into `fetched`, and `Download` turns
`fetched` into `downloaded`. -/
def UpdateSteps (env : Env X T V S L C W) (cfg : Config) (cmd : Command) (name : String)
    (c : C) (w : W) (found repo : RemoteRepo X T) (verifier : Option V)
    (fetched : RemoteRepo X T) (w1 : W) (downloaded : RemoteRepo X T) (w2 : W) : Prop :=
  env.ByName c name = .ok found ∧
  env.LoadComplete c found = .ok repo ∧
  (getVerifier env cfg cmd).1 = (verifier, none) ∧
  env.Fetch w repo verifier = (none, fetched, w1) ∧
  env.Download w1 fetched cmd.ignoreChecksums = (none, downloaded, w2)

/-- The three steps of `aptlyMirrorCreate` that precede `Add` all succeed:
`NewRemoteRepo` builds `repo`, `getVerifier` returns `verifier` without error,
and `Fetch` turns `repo` into `fetched`. -/
def CreateSteps (env : Env X T V S L C W) (cfg : Config) (cmd : Command)
    (name url distribution : String) (components : List String) (w : W)
    (repo : RemoteRepo X T) (verifier : Option V) (fetched : RemoteRepo X T) (w1 : W) : Prop :=
  env.NewRemoteRepo name url distribution components cfg.architecturesList
    (cfg.DownloadSourcePackages || cmd.withSources) = .ok repo ∧
  (getVerifier env cfg cmd).1 = (verifier, none) ∧
  env.Fetch w repo verifier = (none, fetched, w1)

end Vocabulary

/-! ## Helper lemmas -/

section Lemmas

variable {X T V S L C W : Type}

/-- The state of the keyring accumulator and the errors returned after a
sequence of `Set` calls, from any starting point. -/
theorem setAll_fold (vs : List String) (errs : List GoError) (k : keyRingsFlag) :
    vs.foldl (fun acc v => (acc.1 ++ [(acc.2.Set v).1], (acc.2.Set v).2)) (errs, k) =
      (errs ++ List.replicate vs.length none, { keyRings := k.keyRings ++ vs }) := by
  induction vs generalizing errs k with
  | nil => simp
  | cons v vs ih =>
    rw [List.foldl_cons, ih]
    simp [keyRingsFlag.Set, List.replicate_succ]

/-- The keyring loop of `getVerifier` adds the keyrings in order and logs one
`AddKeyring` per keyring. -/
theorem keyring_loop (env : Env X T V S L C W) (l : List String) (v : V)
    (cs : List (Call X T V)) :
    l.foldl (fun acc keyRing => (env.AddKeyring acc.1 keyRing, acc.2 ++ [Call.AddKeyring keyRing]))
        (v, cs) =
      (l.foldl env.AddKeyring v, cs ++ l.map .AddKeyring) := by
  induction l generalizing v cs with
  | nil => simp
  | cons k l ih =>
    rw [List.foldl_cons, ih]
    simp

/-- Printing one chunk per element of a list appends the chunks in order and
touches nothing else. -/
theorem printf_loop {A : Type} (f : A → String) (l : List A) (r : Run X T V C W) :
    l.foldl (fun r a => r.printf (f a)) r = { r with stdout := r.stdout ++ l.map f } := by
  induction l generalizing r with
  | nil => simp
  | cons a l ih =>
    rw [List.foldl_cons, ih]
    simp [Run.printf]

/-- The `ForEach` closure of `aptlyMirrorList` fills the slice from index
`done.length` on, as long as the slice has room for every visited repo. -/
theorem listHandler_fill (env : Env X T V S L C W) (l : List (RemoteRepo X T))
    (done pad : List String) (h : l.length ≤ pad.length) :
    l.foldl (listHandler env) (some (done ++ pad, done.length)) =
      some (done ++ l.map env.RepoString ++ pad.drop l.length, done.length + l.length) := by
  induction l generalizing done pad with
  | nil => simp
  | cons x l ih =>
    cases pad with
    | nil => simp at h
    | cons p pad =>
      have hl : l.length ≤ pad.length := by simpa using h
      have hstep : listHandler env (some (done ++ p :: pad, done.length)) x =
          some ((done ++ [env.RepoString x]) ++ pad, (done ++ [env.RepoString x]).length) := by
        simp [listHandler]
      rw [List.foldl_cons, hstep, ih _ _ hl]
      simp [Nat.add_assoc, Nat.add_comm 1]

/-- The calls made by `getVerifier` are `AddKeyring` and `InitKeyring` only. -/
theorem getVerifier_calls (env : Env X T V S L C W) (cfg : Config) (cmd : Command) :
    ∀ call ∈ (getVerifier env cfg cmd).2,
      call.isCollectionOp = false ∧ call.isDownload = false ∧ call.isAdd = false ∧
        call.isUpdate = false := by
  unfold getVerifier
  split
  · simp
  · rw [keyring_loop]
    rcases hk : env.InitKeyring (cmd.keyRings.keyRings.foldl env.AddKeyring env.NewGpgVerifier)
      with ⟨_ | e, v⟩ <;>
    · simp only [hk, List.nil_append, List.mem_append, List.mem_map, List.mem_singleton]
      rintro call (⟨k, _, rfl⟩ | rfl) <;>
        simp [Call.isCollectionOp, Call.isDownload, Call.isAdd, Call.isUpdate]

/-- When the first three steps of `aptlyMirrorUpdate` are known, the values
in `UpdateSteps` are determined. -/
theorem updateSteps_inv (env : Env X T V S L C W) (cfg : Config) (cmd : Command)
    (name : String) (c : C) (w : W) (found repo : RemoteRepo X T) (verifier : Option V)
    (ge : GoError) (vc : List (Call X T V))
    (hn : env.ByName c name = .ok found) (hl : env.LoadComplete c found = .ok repo)
    (hv : getVerifier env cfg cmd = ((verifier, ge), vc))
    {f r : RemoteRepo X T} {v : Option V} {ft : RemoteRepo X T} {w1 : W} {d : RemoteRepo X T}
    {w2 : W} (h : UpdateSteps env cfg cmd name c w f r v ft w1 d w2) :
    f = found ∧ r = repo ∧ v = verifier ∧ ge = none ∧
      env.Fetch w repo verifier = (none, ft, w1) ∧
      env.Download w1 ft cmd.ignoreChecksums = (none, d, w2) := by
  obtain ⟨h1, h2, h3, h4, h5⟩ := h
  rw [hn] at h1
  cases h1
  rw [hl] at h2
  cases h2
  rw [hv] at h3
  cases h3
  exact ⟨rfl, rfl, rfl, rfl, h4, h5⟩

/-- The shape of the atomicity statement on a run in which `Update` was not
called, an error was returned and the collection was left alone. -/
theorem atomicity_of_failure (res : GoError × Run X T V C W) (c : C) (P : Prop)
    (hany : res.2.calls.any Call.isUpdate = false) (herr : res.1 ≠ none)
    (hc : res.2.repoCollection = c) (hP : ¬ P) :
    (res.2.calls.filter Call.isUpdate).length ≤ 1 ∧
      (res.2.calls.any Call.isUpdate = true ↔ P) ∧
      (¬ P → res.1 ≠ none ∧ res.2.repoCollection = c) := by
  refine ⟨?_, ?_, fun _ => ⟨herr, hc⟩⟩
  · have : res.2.calls.filter Call.isUpdate = [] := by
      rw [List.filter_eq_nil_iff]
      intro call hcall hup
      have := List.any_eq_true.mpr ⟨call, hcall, hup⟩
      simp [hany] at this
    simp [this]
  · simp [hany, hP]

/-! ### The paths through `aptlyMirrorUpdate` -/

/-- `update`: `ByName` fails. -/
theorem update_byName_fails (env : Env X T V S L C W) (cfg : Config) (cmd : Command)
    (name : String) (c : C) (w : W) (e : String)
    (hn : env.ByName c name = .error e) :
    aptlyMirrorUpdate env cfg cmd [name] (Run.start c w) =
      (some ("unable to update: " ++ e),
        { repoCollection := c, world := w, stdout := [], calls := [.ByName name (some e)] }) := by
  simp [aptlyMirrorUpdate, Run.start, Run.log, hn]

/-- `update`: `LoadComplete` fails. -/
theorem update_loadComplete_fails (env : Env X T V S L C W) (cfg : Config) (cmd : Command)
    (name : String) (c : C) (w : W) (found : RemoteRepo X T) (e : String)
    (hn : env.ByName c name = .ok found) (hl : env.LoadComplete c found = .error e) :
    aptlyMirrorUpdate env cfg cmd [name] (Run.start c w) =
      (some ("unable to update: " ++ e),
        { repoCollection := c, world := w, stdout := [],
          calls := [.ByName name none, .LoadComplete found (some e)] }) := by
  simp [aptlyMirrorUpdate, Run.start, Run.log, hn, hl]

/-- `update`: `getVerifier` fails. -/
theorem update_getVerifier_fails (env : Env X T V S L C W) (cfg : Config) (cmd : Command)
    (name : String) (c : C) (w : W) (found repo : RemoteRepo X T) (verifier : Option V)
    (e : String) (vc : List (Call X T V))
    (hn : env.ByName c name = .ok found) (hl : env.LoadComplete c found = .ok repo)
    (hv : getVerifier env cfg cmd = ((verifier, some e), vc)) :
    aptlyMirrorUpdate env cfg cmd [name] (Run.start c w) =
      (some ("unable to initialize GPG verifier: " ++ e),
        { repoCollection := c, world := w, stdout := [],
          calls := [.ByName name none, .LoadComplete found none] ++ vc }) := by
  simp [aptlyMirrorUpdate, Run.start, Run.log, Run.logAll, hn, hl, hv]

/-- `update`: `Fetch` fails. -/
theorem update_fetch_fails (env : Env X T V S L C W) (cfg : Config) (cmd : Command)
    (name : String) (c : C) (w : W) (found repo : RemoteRepo X T) (verifier : Option V)
    (vc : List (Call X T V)) (e : String) (x : RemoteRepo X T) (w1 : W)
    (hn : env.ByName c name = .ok found) (hl : env.LoadComplete c found = .ok repo)
    (hv : getVerifier env cfg cmd = ((verifier, none), vc))
    (hf : env.Fetch w repo verifier = (some e, x, w1)) :
    aptlyMirrorUpdate env cfg cmd [name] (Run.start c w) =
      (some ("unable to update: " ++ e),
        { repoCollection := c, world := w1, stdout := [],
          calls := [.ByName name none, .LoadComplete found none] ++ vc ++
            [.Fetch repo verifier (some e)] }) := by
  simp [aptlyMirrorUpdate, Run.start, Run.log, Run.logAll, hn, hl, hv, hf]

/-- `update`: `Download` fails. -/
theorem update_download_fails (env : Env X T V S L C W) (cfg : Config) (cmd : Command)
    (name : String) (c : C) (w : W) (found repo : RemoteRepo X T) (verifier : Option V)
    (vc : List (Call X T V)) (fetched : RemoteRepo X T) (w1 : W) (e : String)
    (x : RemoteRepo X T) (w2 : W)
    (hn : env.ByName c name = .ok found) (hl : env.LoadComplete c found = .ok repo)
    (hv : getVerifier env cfg cmd = ((verifier, none), vc))
    (hf : env.Fetch w repo verifier = (none, fetched, w1))
    (hd : env.Download w1 fetched cmd.ignoreChecksums = (some e, x, w2)) :
    aptlyMirrorUpdate env cfg cmd [name] (Run.start c w) =
      (some ("unable to update: " ++ e),
        { repoCollection := c, world := w2, stdout := [],
          calls := [.ByName name none, .LoadComplete found none] ++ vc ++
            [.Fetch repo verifier none, .Download fetched cmd.ignoreChecksums (some e)] }) := by
  simp [aptlyMirrorUpdate, Run.start, Run.log, Run.logAll, hn, hl, hv, hf, hd]

/-- `update`: the five steps succeed and `Update` fails. -/
theorem update_update_fails (env : Env X T V S L C W) (cfg : Config) (cmd : Command)
    (name : String) (c : C) (w : W) (found repo : RemoteRepo X T) (verifier : Option V)
    (vc : List (Call X T V)) (fetched : RemoteRepo X T) (w1 : W)
    (downloaded : RemoteRepo X T) (w2 : W) (e : String) (c1 : C)
    (hn : env.ByName c name = .ok found) (hl : env.LoadComplete c found = .ok repo)
    (hv : getVerifier env cfg cmd = ((verifier, none), vc))
    (hf : env.Fetch w repo verifier = (none, fetched, w1))
    (hd : env.Download w1 fetched cmd.ignoreChecksums = (none, downloaded, w2))
    (hu : env.Update c downloaded = (some e, c1)) :
    aptlyMirrorUpdate env cfg cmd [name] (Run.start c w) =
      (some ("unable to update: " ++ e),
        { repoCollection := c1, world := w2, stdout := [],
          calls := [.ByName name none, .LoadComplete found none] ++ vc ++
            [.Fetch repo verifier none, .Download fetched cmd.ignoreChecksums none,
              .Update downloaded (some e)] }) := by
  simp [aptlyMirrorUpdate, Run.start, Run.log, Run.logAll, hn, hl, hv, hf, hd, hu]

/-- `update`: every step succeeds. -/
theorem update_succeeds (env : Env X T V S L C W) (cfg : Config) (cmd : Command)
    (name : String) (c : C) (w : W) (found repo : RemoteRepo X T) (verifier : Option V)
    (vc : List (Call X T V)) (fetched : RemoteRepo X T) (w1 : W)
    (downloaded : RemoteRepo X T) (w2 : W) (c1 : C)
    (hn : env.ByName c name = .ok found) (hl : env.LoadComplete c found = .ok repo)
    (hv : getVerifier env cfg cmd = ((verifier, none), vc))
    (hf : env.Fetch w repo verifier = (none, fetched, w1))
    (hd : env.Download w1 fetched cmd.ignoreChecksums = (none, downloaded, w2))
    (hu : env.Update c downloaded = (none, c1)) :
    aptlyMirrorUpdate env cfg cmd [name] (Run.start c w) =
      (none,
        { repoCollection := c1, world := w2,
          stdout := ["\nMirror `" ++ downloaded.Name ++ "` has been successfully updated.\n"],
          calls := [.ByName name none, .LoadComplete found none] ++ vc ++
            [.Fetch repo verifier none, .Download fetched cmd.ignoreChecksums none,
              .Update downloaded none] }) := by
  simp [aptlyMirrorUpdate, Run.start, Run.log, Run.logAll, Run.printf, hn, hl, hv, hf, hd, hu]

/-! ### The paths through `aptlyMirrorCreate` -/

/-- `create`: `NewRemoteRepo` fails. -/
theorem create_newRemoteRepo_fails (env : Env X T V S L C W) (cfg : Config) (cmd : Command)
    (name url distribution : String) (components : List String) (c : C) (w : W) (e : String)
    (hr : env.NewRemoteRepo name url distribution components cfg.architecturesList
      (cfg.DownloadSourcePackages || cmd.withSources) = .error e) :
    aptlyMirrorCreate env cfg cmd (name :: url :: distribution :: components) (Run.start c w) =
      (some ("unable to create mirror: " ++ e),
        { repoCollection := c, world := w, stdout := [],
          calls := [.NewRemoteRepo name url distribution components cfg.architecturesList
            (cfg.DownloadSourcePackages || cmd.withSources) (some e)] }) := by
  simp [aptlyMirrorCreate, Run.start, Run.log, hr]

/-- `create`: `getVerifier` fails. -/
theorem create_getVerifier_fails (env : Env X T V S L C W) (cfg : Config) (cmd : Command)
    (name url distribution : String) (components : List String) (c : C) (w : W)
    (repo : RemoteRepo X T) (verifier : Option V) (e : String) (vc : List (Call X T V))
    (hr : env.NewRemoteRepo name url distribution components cfg.architecturesList
      (cfg.DownloadSourcePackages || cmd.withSources) = .ok repo)
    (hv : getVerifier env cfg cmd = ((verifier, some e), vc)) :
    aptlyMirrorCreate env cfg cmd (name :: url :: distribution :: components) (Run.start c w) =
      (some ("unable to initialize GPG verifier: " ++ e),
        { repoCollection := c, world := w, stdout := [],
          calls := [.NewRemoteRepo name url distribution components cfg.architecturesList
            (cfg.DownloadSourcePackages || cmd.withSources) none] ++ vc }) := by
  simp [aptlyMirrorCreate, Run.start, Run.log, Run.logAll, hr, hv]

/-- `create`: `Fetch` fails. -/
theorem create_fetch_fails (env : Env X T V S L C W) (cfg : Config) (cmd : Command)
    (name url distribution : String) (components : List String) (c : C) (w : W)
    (repo : RemoteRepo X T) (verifier : Option V) (vc : List (Call X T V)) (e : String)
    (x : RemoteRepo X T) (w1 : W)
    (hr : env.NewRemoteRepo name url distribution components cfg.architecturesList
      (cfg.DownloadSourcePackages || cmd.withSources) = .ok repo)
    (hv : getVerifier env cfg cmd = ((verifier, none), vc))
    (hf : env.Fetch w repo verifier = (some e, x, w1)) :
    aptlyMirrorCreate env cfg cmd (name :: url :: distribution :: components) (Run.start c w) =
      (some ("unable to fetch mirror: " ++ e),
        { repoCollection := c, world := w1, stdout := [],
          calls := [.NewRemoteRepo name url distribution components cfg.architecturesList
            (cfg.DownloadSourcePackages || cmd.withSources) none] ++ vc ++
            [.Fetch repo verifier (some e)] }) := by
  simp [aptlyMirrorCreate, Run.start, Run.log, Run.logAll, hr, hv, hf]

/-- `create`: the three steps succeed and `Add` fails. -/
theorem create_add_fails (env : Env X T V S L C W) (cfg : Config) (cmd : Command)
    (name url distribution : String) (components : List String) (c : C) (w : W)
    (repo : RemoteRepo X T) (verifier : Option V) (vc : List (Call X T V))
    (fetched : RemoteRepo X T) (w1 : W) (e : String) (c1 : C)
    (hr : env.NewRemoteRepo name url distribution components cfg.architecturesList
      (cfg.DownloadSourcePackages || cmd.withSources) = .ok repo)
    (hv : getVerifier env cfg cmd = ((verifier, none), vc))
    (hf : env.Fetch w repo verifier = (none, fetched, w1))
    (ha : env.Add c fetched = (some e, c1)) :
    aptlyMirrorCreate env cfg cmd (name :: url :: distribution :: components) (Run.start c w) =
      (some ("unable to add mirror: " ++ e),
        { repoCollection := c1, world := w1, stdout := [],
          calls := [.NewRemoteRepo name url distribution components cfg.architecturesList
            (cfg.DownloadSourcePackages || cmd.withSources) none] ++ vc ++
            [.Fetch repo verifier none, .Add fetched (some e)] }) := by
  simp [aptlyMirrorCreate, Run.start, Run.log, Run.logAll, hr, hv, hf, ha]

/-- `create`: every step succeeds. -/
theorem create_succeeds (env : Env X T V S L C W) (cfg : Config) (cmd : Command)
    (name url distribution : String) (components : List String) (c : C) (w : W)
    (repo : RemoteRepo X T) (verifier : Option V) (vc : List (Call X T V))
    (fetched : RemoteRepo X T) (w1 : W) (c1 : C)
    (hr : env.NewRemoteRepo name url distribution components cfg.architecturesList
      (cfg.DownloadSourcePackages || cmd.withSources) = .ok repo)
    (hv : getVerifier env cfg cmd = ((verifier, none), vc))
    (hf : env.Fetch w repo verifier = (none, fetched, w1))
    (ha : env.Add c fetched = (none, c1)) :
    aptlyMirrorCreate env cfg cmd (name :: url :: distribution :: components) (Run.start c w) =
      (none,
        { repoCollection := c1, world := w1,
          stdout := ["\nMirror " ++ env.RepoString fetched ++
            " successfully added.\nYou can run \x27aptly mirror update " ++ fetched.Name ++
            "\x27 to download repository contents.\n"],
          calls := [.NewRemoteRepo name url distribution components cfg.architecturesList
            (cfg.DownloadSourcePackages || cmd.withSources) none] ++ vc ++
            [.Fetch repo verifier none, .Add fetched none] }) := by
  simp [aptlyMirrorCreate, Run.start, Run.log, Run.logAll, Run.printf, hr, hv, hf, ha]

/-! ### The paths through `aptlyMirrorShow` and `aptlyMirrorDrop` -/

/-- `show`: `ByName` fails. -/
theorem show_byName_fails (env : Env X T V S L C W) (cmd : Command)
    (name : String) (c : C) (w : W) (e : String)
    (hn : env.ByName c name = .error e) :
    aptlyMirrorShow env cmd [name] (Run.start c w) =
      (some ("unable to show: " ++ e),
        { repoCollection := c, world := w, stdout := [], calls := [.ByName name (some e)] }) := by
  simp [aptlyMirrorShow, Run.start, Run.log, hn]

/-- `show`: `LoadComplete` fails. -/
theorem show_loadComplete_fails (env : Env X T V S L C W) (cmd : Command)
    (name : String) (c : C) (w : W) (found : RemoteRepo X T) (e : String)
    (hn : env.ByName c name = .ok found) (hl : env.LoadComplete c found = .error e) :
    aptlyMirrorShow env cmd [name] (Run.start c w) =
      (some ("unable to show: " ++ e),
        { repoCollection := c, world := w, stdout := [],
          calls := [.ByName name none, .LoadComplete found (some e)] }) := by
  simp [aptlyMirrorShow, Run.start, Run.log, hn, hl]

/-- `show`: both collection operations succeed; the command returns `nil`
and calls no collection operation afterwards. -/
theorem show_succeeds (env : Env X T V S L C W) (cmd : Command)
    (name : String) (c : C) (w : W) (found repo : RemoteRepo X T)
    (hn : env.ByName c name = .ok found) (hl : env.LoadComplete c found = .ok repo) :
    (aptlyMirrorShow env cmd [name] (Run.start c w)).1 = none ∧
      ∃ rest, (aptlyMirrorShow env cmd [name] (Run.start c w)).2.calls =
          [.ByName name none, .LoadComplete found none] ++ rest ∧
        ∀ call ∈ rest, call.isCollectionOp = false := by
  simp only [aptlyMirrorShow, Run.start, Run.log, hn, hl,
    printf_loop]
  cases hz : env.IsZero repo.LastDownloadDate <;> cases hp : cmd.withPackages <;>
    simp [Run.printf, Call.isCollectionOp]

/-- `drop`: `ByName` fails. -/
theorem drop_byName_fails (env : Env X T V S L C W) (cmd : Command)
    (name : String) (c : C) (w : W) (e : String)
    (hn : env.ByName c name = .error e) :
    aptlyMirrorDrop env cmd [name] (Run.start c w) =
      (some ("unable to drop: " ++ e),
        { repoCollection := c, world := w, stdout := [], calls := [.ByName name (some e)] }) := by
  simp [aptlyMirrorDrop, Run.start, Run.log, hn]

/-- `drop`: the snapshot guard refuses. -/
theorem drop_refused (env : Env X T V S L C W) (cmd : Command)
    (name : String) (c : C) (w : W) (repo : RemoteRepo X T)
    (hn : env.ByName c name = .ok repo) (hforce : cmd.force = false)
    (hsnap : env.ByRemoteRepoSource w repo ≠ []) :
    aptlyMirrorDrop env cmd [name] (Run.start c w) =
      (some "won\x27t delete mirror with snapshots, use -force to override",
        { repoCollection := c, world := w,
          stdout := ("Mirror `" ++ repo.Name ++ "` was used to create following snapshots:\n") ::
            (env.ByRemoteRepoSource w repo).map
              (fun snapshot => " * " ++ env.SnapshotString snapshot ++ "\n"),
          calls := [.ByName name none, .ByRemoteRepoSource repo] }) := by
  have hlen : 0 < (env.ByRemoteRepoSource w repo).length := List.length_pos.mpr hsnap
  simp only [aptlyMirrorDrop, Run.start, hn, hforce, printf_loop]
  simp [Run.log, Run.printf, hlen]

/-- `drop`: the snapshot guard lets the command through and `Drop` fails. -/
theorem drop_drop_fails (env : Env X T V S L C W) (cmd : Command)
    (name : String) (c : C) (w : W) (repo : RemoteRepo X T) (e : String) (c1 : C)
    (hn : env.ByName c name = .ok repo)
    (hguard : cmd.force = true ∨ env.ByRemoteRepoSource w repo = [])
    (hd : env.Drop c repo = (some e, c1)) :
    aptlyMirrorDrop env cmd [name] (Run.start c w) =
      (some ("unable to drop: " ++ e),
        { repoCollection := c1, world := w, stdout := [],
          calls := .ByName name none ::
            ((if cmd.force then [] else [.ByRemoteRepoSource repo]) ++
              [.Drop repo (some e)]) }) := by
  cases hforce : cmd.force
  · have hnil : env.ByRemoteRepoSource w repo = [] := by simpa [hforce] using hguard
    simp [aptlyMirrorDrop, dropRepo, Run.start, Run.log, hn, hforce, hnil, hd]
  · simp [aptlyMirrorDrop, dropRepo, Run.start, Run.log, hn, hforce, hd]

/-- `drop`: the snapshot guard lets the command through and `Drop` succeeds. -/
theorem drop_succeeds (env : Env X T V S L C W) (cmd : Command)
    (name : String) (c : C) (w : W) (repo : RemoteRepo X T) (c1 : C)
    (hn : env.ByName c name = .ok repo)
    (hguard : cmd.force = true ∨ env.ByRemoteRepoSource w repo = [])
    (hd : env.Drop c repo = (none, c1)) :
    aptlyMirrorDrop env cmd [name] (Run.start c w) =
      (none,
        { repoCollection := c1, world := w,
          stdout := ["Mirror `" ++ repo.Name ++ "` has been removed.\n"],
          calls := .ByName name none ::
            ((if cmd.force then [] else [.ByRemoteRepoSource repo]) ++
              [.Drop repo none]) }) := by
  cases hforce : cmd.force
  · have hnil : env.ByRemoteRepoSource w repo = [] := by simpa [hforce] using hguard
    simp [aptlyMirrorDrop, dropRepo, Run.start, Run.log, Run.printf, hn, hforce, hnil, hd]
  · simp [aptlyMirrorDrop, dropRepo, Run.start, Run.log, Run.printf, hn, hforce, hd]

/-! ### Surfacing of errors -/

/-- The last element of a list that ends with `a`. -/
theorem getLast_of_eq {A : Type} (l done : List A) (a : A) (h : l = done ++ [a]) :
    l.getLast? = some a := by
  rw [h]
  exact List.getLast?_concat _

/-- When `getVerifier` returns an error, its last call is the `InitKeyring`
that returned it. -/
theorem getVerifier_fails_last (env : Env X T V S L C W) (cfg : Config) (cmd : Command)
    (verifier : Option V) (e : String) (vc : List (Call X T V))
    (hv : getVerifier env cfg cmd = ((verifier, some e), vc)) :
    ∃ done, vc = done ++ [.InitKeyring (some e)] := by
  unfold getVerifier at hv
  split at hv
  · simp at hv
  · rw [keyring_loop] at hv
    rcases hk : env.InitKeyring (cmd.keyRings.keyRings.foldl env.AddKeyring env.NewGpgVerifier)
      with ⟨_ | e1, v⟩
    · simp [hk] at hv
    · simp only [hk, List.nil_append, Prod.mk.injEq, Option.some.injEq] at hv
      obtain ⟨⟨-, rfl⟩, rfl⟩ := hv
      exact ⟨_, rfl⟩

/-- A message contains the text it ends with. -/
theorem contains_append (p e : String) : Contains (p ++ e) e :=
  ⟨p.data, [], by simp⟩

/-- A message contains what its tail contains. -/
theorem contains_of_tail (p e sub : String) (h : Contains e sub) : Contains (p ++ e) sub := by
  obtain ⟨a, b, hab⟩ := h
  exact ⟨p.data ++ a, b, by simp [← hab]⟩

/-- A run whose collection operations all succeeded surfaces every collection
error. -/
theorem surfaces_of_all_good (res : GoError × Run X T V C W)
    (hgood : ∀ call ∈ res.2.calls, call.isCollectionOp = true → call.err = none) :
    SurfacesCollectionErrors res := by
  intro pre call post e hcalls hop herr
  have hmem : call ∈ res.2.calls := by simp [hcalls]
  rw [hgood call hmem hop] at herr
  cases herr

/-- A run that stops at its first failed call, with the error of that call
wrapped in the returned message, surfaces every collection error. -/
theorem surfaces_of_last (res : GoError × Run X T V C W) (good : List (Call X T V))
    (last : Call X T V) (p e : String)
    (hcalls : res.2.calls = good ++ [last])
    (hgood : ∀ call ∈ good, call.isCollectionOp = true → call.err = none)
    (hlast : last.err = some e) (hres : res.1 = some (p ++ e)) :
    SurfacesCollectionErrors res := by
  intro pre call post e1 hsplit hop herr
  rw [hcalls] at hsplit
  rcases List.append_eq_append_iff.mp hsplit with ⟨a, ha, hb⟩ | ⟨b, ha, hb⟩
  · cases a with
    | nil =>
      simp only [List.nil_append, List.cons.injEq] at hb
      obtain ⟨rfl, rfl⟩ := hb
      rw [hlast] at herr
      cases herr
      exact ⟨⟨_, hres, contains_append p e⟩, by simp⟩
    | cons x a =>
      have hlen := congrArg List.length hb
      simp at hlen
  · cases b with
    | nil =>
      simp only [List.nil_append, List.cons.injEq] at hb
      obtain ⟨rfl, rfl⟩ := hb
      rw [hlast] at herr
      cases herr
      exact ⟨⟨_, hres, contains_append p e⟩, by simp⟩
    | cons x b =>
      simp only [List.cons_append, List.cons.injEq] at hb
      have hmem : call ∈ good := by rw [ha, ← hb.1]; simp
      rw [hgood call hmem hop] at herr
      cases herr

end Lemmas

/-! ## The claims -/

section Claims

variable {X T V S L C W : Type}

/-- C1. When `ByName` resolves the name, `-force` is off and
`ByRemoteRepoSource` returns at least one snapshot, `aptlyMirrorDrop` returns
the fixed non-nil error that refuses to delete a mirror with snapshots,
makes no call to `repoCollection.Drop`, leaves the collection as it was, and
prints the header followed by one ` * <snapshot>` line per returned snapshot,
in the order returned. -/
theorem drop_protection (env : Env X T V S L C W) (cmd : Command) (name : String)
    (repo : RemoteRepo X T) (c : C) (w : W)
    (hname : env.ByName c name = .ok repo)
    (hforce : cmd.force = false)
    (hsnap : env.ByRemoteRepoSource w repo ≠ []) :
    (aptlyMirrorDrop env cmd [name] (Run.start c w)).1 =
        some "won\x27t delete mirror with snapshots, use -force to override" ∧
      (∀ call ∈ (aptlyMirrorDrop env cmd [name] (Run.start c w)).2.calls,
        call.isDrop = false) ∧
      (aptlyMirrorDrop env cmd [name] (Run.start c w)).2.repoCollection = c ∧
      (aptlyMirrorDrop env cmd [name] (Run.start c w)).2.stdout =
        ("Mirror `" ++ repo.Name ++ "` was used to create following snapshots:\n") ::
          (env.ByRemoteRepoSource w repo).map
            (fun snapshot => " * " ++ env.SnapshotString snapshot ++ "\n") := by
  have hlen : 0 < (env.ByRemoteRepoSource w repo).length := List.length_pos.mpr hsnap
  simp only [aptlyMirrorDrop, Run.start, hname, hforce, printf_loop]
  simp [Run.log, Run.printf, hlen, Call.isDrop]

/-- C2. When `ByName` resolves the name and `-force` is on, `aptlyMirrorDrop`
calls `repoCollection.Drop` on that repo whatever snapshots exist, without
consulting the snapshot collection, leaves the collection `Drop` produced, and
returns `nil` exactly when `Drop` returns `nil`. -/
theorem drop_override (env : Env X T V S L C W) (cmd : Command) (name : String)
    (repo : RemoteRepo X T) (c : C) (w : W)
    (hname : env.ByName c name = .ok repo)
    (hforce : cmd.force = true) :
    (aptlyMirrorDrop env cmd [name] (Run.start c w)).2.calls =
        [.ByName name none, .Drop repo (env.Drop c repo).1] ∧
      (∀ call ∈ (aptlyMirrorDrop env cmd [name] (Run.start c w)).2.calls,
        call.isByRemoteRepoSource = false) ∧
      (aptlyMirrorDrop env cmd [name] (Run.start c w)).2.repoCollection = (env.Drop c repo).2 ∧
      ((aptlyMirrorDrop env cmd [name] (Run.start c w)).1 = none ↔ (env.Drop c repo).1 = none) := by
  rcases hd : env.Drop c repo with ⟨_ | e, c1⟩ <;>
    simp [aptlyMirrorDrop, dropRepo, Run.start, Run.log, Run.printf, hname, hforce, hd,
      Call.isByRemoteRepoSource]

/-- C8. For a mirror that `ByName` and `LoadComplete` deliver with a zero
`LastDownloadDate`, `aptlyMirrorShow` prints `Last update: never` and calls
nothing after `LoadComplete`, in particular neither `NumPackages` nor
`RefList`, whatever `-with-packages` is; with `-with-packages` its last output
is the notice that the mirror has not been downloaded yet.  With a non-zero
`LastDownloadDate` it calls `NumPackages` and prints the number of packages. -/
theorem show_never_downloaded_guard (env : Env X T V S L C W) (cmd : Command) (name : String)
    (found repo : RemoteRepo X T) (c : C) (w : W)
    (hname : env.ByName c name = .ok found)
    (hload : env.LoadComplete c found = .ok repo) :
    (env.IsZero repo.LastDownloadDate = true →
      "Last update: never\n" ∈ (aptlyMirrorShow env cmd [name] (Run.start c w)).2.stdout ∧
      (aptlyMirrorShow env cmd [name] (Run.start c w)).2.calls =
        [.ByName name none, .LoadComplete found none] ∧
      (∀ call ∈ (aptlyMirrorShow env cmd [name] (Run.start c w)).2.calls,
        call.isPackageData = false) ∧
      (cmd.withPackages = true →
        (aptlyMirrorShow env cmd [name] (Run.start c w)).2.stdout.getLast? =
          some "Unable to show package list, mirror hasn\x27t been downloaded yet.\n")) ∧
    (env.IsZero repo.LastDownloadDate = false →
      ("Number of packages: " ++ toString (env.NumPackages repo) ++ "\n") ∈
        (aptlyMirrorShow env cmd [name] (Run.start c w)).2.stdout ∧
      Call.NumPackages repo ∈ (aptlyMirrorShow env cmd [name] (Run.start c w)).2.calls) := by
  constructor
  · intro hz
    simp only [aptlyMirrorShow, Run.start, Run.log, hname, hload,
      hz, printf_loop]
    cases hp : cmd.withPackages
    · simp [Run.printf, Call.isPackageData]
    · simp only [Run.printf, Call.isPackageData, List.mem_cons, List.mem_append, true_implies]
      refine ⟨by simp, by simp, by simp, ?_⟩
      exact List.getLast?_concat _
  · intro hz
    simp only [aptlyMirrorShow, Run.start, Run.log, hname, hload,
      hz, printf_loop]
    cases hp : cmd.withPackages <;> simp [Run.printf]

/-- C10. If `ForEach` visits exactly `Len()` repos, `aptlyMirrorList` without
arguments does not index `repos` out of range: it returns `nil`.  When
`Len() > 0` it prints the header, then one ` * ` line for each entry of the
sorted `String()` descriptions of the visited repos, which are in ascending
order and a permutation of the descriptions, then the hint; when `Len() = 0`
it prints only the `No mirrors found` notice. -/
theorem mirror_list_sorted (env : Env X T V S L C W) (c : C) (w : W)
    (hvisit : ((env.ForEach c).length : Int) = env.Len c) :
    (aptlyMirrorList env [] (Run.start c w)).1 = .returned none ∧
    (0 < env.Len c →
      (aptlyMirrorList env [] (Run.start c w)).2.stdout =
        "List of mirrors:\n" ::
          ((sortStrings ((env.ForEach c).map env.RepoString)).map
              (fun repo => " * " ++ repo ++ "\n") ++
            ["\nTo get more information about mirror, run `aptly mirror show <name>`.\n"]) ∧
      (sortStrings ((env.ForEach c).map env.RepoString)).Sorted (fun a b => a ≤ b) ∧
      (sortStrings ((env.ForEach c).map env.RepoString)).Perm
        ((env.ForEach c).map env.RepoString) ∧
      (sortStrings ((env.ForEach c).map env.RepoString)).length = (env.ForEach c).length) ∧
    (env.Len c = 0 →
      (aptlyMirrorList env [] (Run.start c w)).2.stdout =
        ["No mirrors found, create one with `aptly mirror create ...`.\n"]) := by
  have hfill : (env.ForEach c).foldl (listHandler env)
      (some (List.replicate (env.Len c).toNat "", 0)) =
        some ((env.ForEach c).map env.RepoString, (env.ForEach c).length) := by
    have h := listHandler_fill env (env.ForEach c) [] (List.replicate (env.Len c).toNat "")
      (by simp [← hvisit])
    simpa [← hvisit] using h
  refine ⟨?_, ?_, ?_⟩
  · by_cases hpos : 0 < env.Len c
    · simp only [aptlyMirrorList, Run.start, Run.log, hfill, printf_loop]
      simp [Run.printf, hpos, hfill]
    · simp [aptlyMirrorList, Run.start, Run.log, Run.printf, hpos]
  · intro hpos
    refine ⟨?_, ?_, ?_, ?_⟩
    · simp only [aptlyMirrorList, Run.start, Run.log, hfill, printf_loop]
      simp [Run.printf, hpos, hfill]
    · exact List.sorted_insertionSort _ _
    · exact List.perm_insertionSort _ _
    · simp [sortStrings, List.length_insertionSort]
  · intro hzero
    simp [aptlyMirrorList, Run.start, Run.log, Run.printf, hzero]

/-- C3. In a single-argument run of `aptlyMirrorUpdate`,
`repoCollection.Update` is called at most once; it is called exactly when
`ByName`, `LoadComplete`, `getVerifier`, `Fetch` and `Download` all succeeded,
and then the calls are these, in this order, followed by `Update` on the
downloaded repo; when one of the five steps fails the command returns a
non-nil error and the collection is the one it started with. -/
theorem update_atomicity (env : Env X T V S L C W) (cfg : Config) (cmd : Command)
    (name : String) (c : C) (w : W) :
    (((aptlyMirrorUpdate env cfg cmd [name] (Run.start c w)).2.calls.filter
        Call.isUpdate).length ≤ 1 ∧
      ((aptlyMirrorUpdate env cfg cmd [name] (Run.start c w)).2.calls.any Call.isUpdate = true ↔
        ∃ found repo verifier fetched w1 downloaded w2,
          UpdateSteps env cfg cmd name c w found repo verifier fetched w1 downloaded w2) ∧
      ((¬ ∃ found repo verifier fetched w1 downloaded w2,
          UpdateSteps env cfg cmd name c w found repo verifier fetched w1 downloaded w2) →
        (aptlyMirrorUpdate env cfg cmd [name] (Run.start c w)).1 ≠ none ∧
        (aptlyMirrorUpdate env cfg cmd [name] (Run.start c w)).2.repoCollection = c)) ∧
    (∀ found repo verifier fetched w1 downloaded w2,
      UpdateSteps env cfg cmd name c w found repo verifier fetched w1 downloaded w2 →
        (aptlyMirrorUpdate env cfg cmd [name] (Run.start c w)).2.calls =
          [.ByName name none, .LoadComplete found none] ++ (getVerifier env cfg cmd).2 ++
            [.Fetch repo verifier none, .Download fetched cmd.ignoreChecksums none,
              .Update downloaded (env.Update c downloaded).1]) := by
  have hvc := getVerifier_calls env cfg cmd
  rcases hv : getVerifier env cfg cmd with ⟨⟨verifier, ge⟩, vc⟩
  rw [hv] at hvc
  simp only at hvc ⊢
  have hany : vc.any Call.isUpdate = false := by
    rw [List.any_eq_false]
    intro call hcall
    simp [(hvc call hcall).2.2.2]
  have hnone : vc.filter Call.isUpdate = [] := by
    rw [List.filter_eq_nil_iff]
    intro call hcall
    simp [(hvc call hcall).2.2.2]
  rcases hn : env.ByName c name with e | found
  · have hno : ¬ ∃ found repo verifier fetched w1 downloaded w2,
        UpdateSteps env cfg cmd name c w found repo verifier fetched w1 downloaded w2 := by
      rintro ⟨f, r, v, ft, w1, d, w2, h1, -⟩
      rw [hn] at h1
      cases h1
    refine ⟨atomicity_of_failure _ c _ ?_ ?_ ?_ hno, fun f r v ft w1 d w2 h =>
      absurd ⟨f, r, v, ft, w1, d, w2, h⟩ hno⟩ <;>
      simp [update_byName_fails env cfg cmd name c w e hn, Call.isUpdate]
  rcases hl : env.LoadComplete c found with e | repo
  · have hno : ¬ ∃ found repo verifier fetched w1 downloaded w2,
        UpdateSteps env cfg cmd name c w found repo verifier fetched w1 downloaded w2 := by
      rintro ⟨f, r, v, ft, w1, d, w2, h1, h2, -⟩
      rw [hn] at h1
      cases h1
      rw [hl] at h2
      cases h2
    refine ⟨atomicity_of_failure _ c _ ?_ ?_ ?_ hno, fun f r v ft w1 d w2 h =>
      absurd ⟨f, r, v, ft, w1, d, w2, h⟩ hno⟩ <;>
      simp [update_loadComplete_fails env cfg cmd name c w found e hn hl, Call.isUpdate]
  rcases ge with _ | e
  swap
  · have hno : ¬ ∃ found repo verifier fetched w1 downloaded w2,
        UpdateSteps env cfg cmd name c w found repo verifier fetched w1 downloaded w2 := by
      rintro ⟨f, r, v, ft, w1, d, w2, h⟩
      have := (updateSteps_inv env cfg cmd name c w found repo verifier _ vc hn hl hv h).2.2.2.1
      cases this
    refine ⟨atomicity_of_failure _ c _ ?_ ?_ ?_ hno, fun f r v ft w1 d w2 h =>
      absurd ⟨f, r, v, ft, w1, d, w2, h⟩ hno⟩ <;>
      simp [update_getVerifier_fails env cfg cmd name c w found repo verifier e vc hn hl hv,
        Call.isUpdate, hany]
  rcases hf : env.Fetch w repo verifier with ⟨_ | e, fetched, w1⟩
  swap
  · have hno : ¬ ∃ found repo verifier fetched w1 downloaded w2,
        UpdateSteps env cfg cmd name c w found repo verifier fetched w1 downloaded w2 := by
      rintro ⟨f, r, v, ft, w1, d, w2, h⟩
      have := (updateSteps_inv env cfg cmd name c w found repo verifier _ vc hn hl hv h).2.2.2.2.1
      rw [hf] at this
      cases this
    refine ⟨atomicity_of_failure _ c _ ?_ ?_ ?_ hno, fun f r v ft w1 d w2 h =>
      absurd ⟨f, r, v, ft, w1, d, w2, h⟩ hno⟩ <;>
      simp [update_fetch_fails env cfg cmd name c w found repo verifier vc e fetched w1 hn hl hv
        hf, Call.isUpdate, hany]
  rcases hd : env.Download w1 fetched cmd.ignoreChecksums with ⟨_ | e, downloaded, w2⟩
  swap
  · have hno : ¬ ∃ found repo verifier fetched w1 downloaded w2,
        UpdateSteps env cfg cmd name c w found repo verifier fetched w1 downloaded w2 := by
      rintro ⟨f, r, v, ft, w1x, d, w2x, h⟩
      obtain ⟨-, -, -, -, h4, h5⟩ :=
        updateSteps_inv env cfg cmd name c w found repo verifier _ vc hn hl hv h
      rw [hf] at h4
      cases h4
      rw [hd] at h5
      cases h5
    refine ⟨atomicity_of_failure _ c _ ?_ ?_ ?_ hno, fun f r v ft w1 d w2 h =>
      absurd ⟨f, r, v, ft, w1, d, w2, h⟩ hno⟩ <;>
      simp [update_download_fails env cfg cmd name c w found repo verifier vc fetched w1 e
        downloaded w2 hn hl hv hf hd, Call.isUpdate, hany]
  have hyes : ∃ found repo verifier fetched w1 downloaded w2,
      UpdateSteps env cfg cmd name c w found repo verifier fetched w1 downloaded w2 :=
    ⟨found, repo, verifier, fetched, w1, downloaded, w2, hn, hl, by rw [hv], hf, hd⟩
  have hcalls : (aptlyMirrorUpdate env cfg cmd [name] (Run.start c w)).2.calls =
      [.ByName name none, .LoadComplete found none] ++ vc ++
        [.Fetch repo verifier none, .Download fetched cmd.ignoreChecksums none,
          .Update downloaded (env.Update c downloaded).1] := by
    rcases hu : env.Update c downloaded with ⟨_ | e, c1⟩
    · rw [update_succeeds env cfg cmd name c w found repo verifier vc fetched w1 downloaded w2
        c1 hn hl hv hf hd hu]
    · rw [update_update_fails env cfg cmd name c w found repo verifier vc fetched w1 downloaded
        w2 e c1 hn hl hv hf hd hu]
  refine ⟨⟨?_, ?_, fun hno => absurd hyes hno⟩, ?_⟩
  · simp [hcalls, Call.isUpdate, hnone, List.filter_cons]
  · simp [hcalls, Call.isUpdate, hyes]
  · intro f r v ft w1x d w2x h
    obtain ⟨rfl, rfl, rfl, -, h4, h5⟩ :=
      updateSteps_inv env cfg cmd name c w found repo verifier _ vc hn hl hv h
    rw [hf] at h4
    cases h4
    rw [hd] at h5
    cases h5
    exact hcalls

/-- C6. For every argument list of length at least 3, that is
`name :: url :: distribution :: components`, `aptlyMirrorCreate` never calls
`Download`; it calls `repoCollection.Add` only if `NewRemoteRepo`,
`getVerifier` and `Fetch` all succeeded, and then on the repo `Fetch` left;
and if `Fetch` fails the command returns a non-nil error, `Add` is not called
and the collection is the one it started with. -/
theorem create_without_download (env : Env X T V S L C W) (cfg : Config) (cmd : Command)
    (args : List String) (c : C) (w : W) (hargs : 3 ≤ args.length) :
    ∃ name url distribution components, args = name :: url :: distribution :: components ∧
      (aptlyMirrorCreate env cfg cmd args (Run.start c w)).2.calls.any Call.isDownload = false ∧
      ((aptlyMirrorCreate env cfg cmd args (Run.start c w)).2.calls.any Call.isAdd = true →
        ∃ repo verifier fetched w1,
          CreateSteps env cfg cmd name url distribution components w repo verifier fetched w1 ∧
          Call.Add fetched (env.Add c fetched).1 ∈
            (aptlyMirrorCreate env cfg cmd args (Run.start c w)).2.calls) ∧
      (∀ repo verifier e x w1,
        env.NewRemoteRepo name url distribution components cfg.architecturesList
          (cfg.DownloadSourcePackages || cmd.withSources) = .ok repo →
        (getVerifier env cfg cmd).1 = (verifier, none) →
        env.Fetch w repo verifier = (some e, x, w1) →
          (aptlyMirrorCreate env cfg cmd args (Run.start c w)).1 ≠ none ∧
          (aptlyMirrorCreate env cfg cmd args (Run.start c w)).2.calls.any Call.isAdd = false ∧
          (aptlyMirrorCreate env cfg cmd args (Run.start c w)).2.repoCollection = c) := by
  obtain ⟨name, url, distribution, components, rfl⟩ :
      ∃ name url distribution components, args = name :: url :: distribution :: components := by
    match args, hargs with
    | name :: url :: distribution :: components, _ => exact ⟨_, _, _, _, rfl⟩
  refine ⟨name, url, distribution, components, rfl, ?_⟩
  have hvc := getVerifier_calls env cfg cmd
  rcases hv : getVerifier env cfg cmd with ⟨⟨verifier, ge⟩, vc⟩
  rw [hv] at hvc
  simp only at hvc ⊢
  have hdl : vc.any Call.isDownload = false := by
    rw [List.any_eq_false]
    intro call hcall
    simp [(hvc call hcall).2.1]
  have hadd : vc.any Call.isAdd = false := by
    rw [List.any_eq_false]
    intro call hcall
    simp [(hvc call hcall).2.2.1]
  rcases hr : env.NewRemoteRepo name url distribution components cfg.architecturesList
    (cfg.DownloadSourcePackages || cmd.withSources) with e | repo
  · rw [create_newRemoteRepo_fails env cfg cmd name url distribution components c w e hr]
    simp [Call.isDownload, Call.isAdd]
  rcases ge with _ | e
  swap
  · rw [create_getVerifier_fails env cfg cmd name url distribution components c w repo verifier
      e vc hr hv]
    simp [Call.isDownload, Call.isAdd, hdl, hadd]
  rcases hf : env.Fetch w repo verifier with ⟨_ | e, fetched, w1⟩
  swap
  · rw [create_fetch_fails env cfg cmd name url distribution components c w repo verifier vc e
      fetched w1 hr hv hf]
    simp [Call.isDownload, Call.isAdd, hdl, hadd]
  have hsteps : CreateSteps env cfg cmd name url distribution components w repo verifier
      fetched w1 := ⟨hr, by rw [hv], hf⟩
  rcases ha : env.Add c fetched with ⟨_ | e, c1⟩
  · rw [create_succeeds env cfg cmd name url distribution components c w repo verifier vc
      fetched w1 c1 hr hv hf ha]
    refine ⟨by simp [Call.isDownload, hdl], fun _ => ⟨repo, verifier, fetched, w1, hsteps, ?_⟩, ?_⟩
    · simp [ha]
    · intro r v e x w1x h1 h2 h3
      cases h1
      cases h2
      rw [hf] at h3
      cases h3
  · rw [create_add_fails env cfg cmd name url distribution components c w repo verifier vc
      fetched w1 e c1 hr hv hf ha]
    refine ⟨by simp [Call.isDownload, hdl], fun _ => ⟨repo, verifier, fetched, w1, hsteps, ?_⟩, ?_⟩
    · simp [ha]
    · intro r v e x w1x h1 h2 h3
      cases h1
      cases h2
      rw [hf] at h3
      cases h3

/-- C4. For `aptlyMirrorCreate`, `aptlyMirrorShow`, `aptlyMirrorUpdate` and
`aptlyMirrorDrop` called with a valid argument count: whenever one of the
collection operations `Add`, `ByName`, `LoadComplete`, `Update`, `Drop` it
calls returns an error `e`, the command returns a non-nil error whose message
contains the text of `e`, and no collection operation is called after it. -/
theorem collection_errors_surfaced (env : Env X T V S L C W) (cfg : Config) (cmd : Command)
    (name url distribution : String) (components : List String) (c : C) (w : W) :
    SurfacesCollectionErrors
        (aptlyMirrorCreate env cfg cmd (name :: url :: distribution :: components)
          (Run.start c w)) ∧
      SurfacesCollectionErrors (aptlyMirrorShow env cmd [name] (Run.start c w)) ∧
      SurfacesCollectionErrors (aptlyMirrorUpdate env cfg cmd [name] (Run.start c w)) ∧
      SurfacesCollectionErrors (aptlyMirrorDrop env cmd [name] (Run.start c w)) := by
  have hvc := getVerifier_calls env cfg cmd
  rcases hv : getVerifier env cfg cmd with ⟨⟨verifier, ge⟩, vc⟩
  rw [hv] at hvc
  simp only at hvc
  have hgv : ∀ call ∈ vc, call.isCollectionOp = true → call.err = none := by
    intro call hcall hop
    rw [(hvc call hcall).1] at hop
    cases hop
  refine ⟨?_, ?_, ?_, ?_⟩
  · -- create
    rcases hr : env.NewRemoteRepo name url distribution components cfg.architecturesList
      (cfg.DownloadSourcePackages || cmd.withSources) with e | repo
    · rw [create_newRemoteRepo_fails env cfg cmd name url distribution components c w e hr]
      exact surfaces_of_all_good _ (by simp [Call.isCollectionOp])
    rcases ge with _ | e
    swap
    · rw [create_getVerifier_fails env cfg cmd name url distribution components c w repo
        verifier e vc hr hv]
      refine surfaces_of_all_good _ ?_
      simp only [List.mem_append, List.mem_singleton]
      rintro call (rfl | hcall)
      · simp [Call.isCollectionOp]
      · exact hgv call hcall
    rcases hf : env.Fetch w repo verifier with ⟨_ | e, fetched, w1⟩
    swap
    · rw [create_fetch_fails env cfg cmd name url distribution components c w repo verifier vc
        e fetched w1 hr hv hf]
      refine surfaces_of_all_good _ ?_
      simp only [List.mem_append, List.mem_singleton]
      rintro call ((rfl | hcall) | rfl)
      · simp [Call.isCollectionOp]
      · exact hgv call hcall
      · simp [Call.isCollectionOp]
    rcases ha : env.Add c fetched with ⟨_ | e, c1⟩
    · rw [create_succeeds env cfg cmd name url distribution components c w repo verifier vc
        fetched w1 c1 hr hv hf ha]
      refine surfaces_of_all_good _ ?_
      simp only [List.mem_append, List.mem_singleton, List.mem_cons, List.not_mem_nil, or_false]
      rintro call ((rfl | hcall) | rfl | rfl)
      · simp [Call.isCollectionOp]
      · exact hgv call hcall
      · simp [Call.isCollectionOp]
      · simp [Call.err]
    · rw [create_add_fails env cfg cmd name url distribution components c w repo verifier vc
        fetched w1 e c1 hr hv hf ha]
      refine surfaces_of_last _
        ([.NewRemoteRepo name url distribution components cfg.architecturesList
          (cfg.DownloadSourcePackages || cmd.withSources) none] ++ vc ++
          [.Fetch repo verifier none]) (.Add fetched (some e)) "unable to add mirror: " e
        (by simp) ?_ rfl rfl
      simp only [List.mem_append, List.mem_singleton]
      rintro call ((rfl | hcall) | rfl)
      · simp [Call.isCollectionOp]
      · exact hgv call hcall
      · simp [Call.isCollectionOp]
  · -- show
    rcases hn : env.ByName c name with e | found
    · rw [show_byName_fails env cmd name c w e hn]
      exact surfaces_of_last _ [] (.ByName name (some e)) "unable to show: " e rfl (by simp)
        rfl rfl
    rcases hl : env.LoadComplete c found with e | repo
    · rw [show_loadComplete_fails env cmd name c w found e hn hl]
      exact surfaces_of_last _ [.ByName name none] (.LoadComplete found (some e))
        "unable to show: " e rfl (by simp [Call.err]) rfl rfl
    · obtain ⟨-, rest, hcalls, hrest⟩ := show_succeeds env cmd name c w found repo hn hl
      refine surfaces_of_all_good _ ?_
      rw [hcalls]
      simp only [List.mem_append, List.mem_cons, List.not_mem_nil, or_false]
      rintro call ((rfl | rfl) | hcall)
      · simp [Call.err]
      · simp [Call.err]
      · intro hop
        rw [hrest call hcall] at hop
        cases hop
  · -- update
    rcases hn : env.ByName c name with e | found
    · rw [update_byName_fails env cfg cmd name c w e hn]
      exact surfaces_of_last _ [] (.ByName name (some e)) "unable to update: " e rfl (by simp)
        rfl rfl
    rcases hl : env.LoadComplete c found with e | repo
    · rw [update_loadComplete_fails env cfg cmd name c w found e hn hl]
      exact surfaces_of_last _ [.ByName name none] (.LoadComplete found (some e))
        "unable to update: " e rfl (by simp [Call.err]) rfl rfl
    have hpre : ∀ call ∈ [Call.ByName name none, Call.LoadComplete found none] ++ vc,
        call.isCollectionOp = true → call.err = none := by
      simp only [List.mem_append, List.mem_cons, List.not_mem_nil, or_false]
      rintro call ((rfl | rfl) | hcall)
      · simp [Call.err]
      · simp [Call.err]
      · exact hgv call hcall
    rcases ge with _ | e
    swap
    · rw [update_getVerifier_fails env cfg cmd name c w found repo verifier e vc hn hl hv]
      exact surfaces_of_all_good _ hpre
    rcases hf : env.Fetch w repo verifier with ⟨_ | e, fetched, w1⟩
    swap
    · rw [update_fetch_fails env cfg cmd name c w found repo verifier vc e fetched w1 hn hl hv
        hf]
      refine surfaces_of_all_good _ ?_
      intro call hcall
      rcases List.mem_append.mp hcall with h | h
      · exact hpre call h
      · rw [List.mem_singleton] at h
        subst h
        simp [Call.isCollectionOp]
    rcases hd : env.Download w1 fetched cmd.ignoreChecksums with ⟨_ | e, downloaded, w2⟩
    swap
    · rw [update_download_fails env cfg cmd name c w found repo verifier vc fetched w1 e
        downloaded w2 hn hl hv hf hd]
      refine surfaces_of_all_good _ ?_
      intro call hcall
      rcases List.mem_append.mp hcall with h | h
      · exact hpre call h
      · simp only [List.mem_cons, List.not_mem_nil, or_false] at h
        rcases h with rfl | rfl <;> simp [Call.isCollectionOp]
    rcases hu : env.Update c downloaded with ⟨_ | e, c1⟩
    · rw [update_succeeds env cfg cmd name c w found repo verifier vc fetched w1 downloaded w2
        c1 hn hl hv hf hd hu]
      refine surfaces_of_all_good _ ?_
      intro call hcall
      rcases List.mem_append.mp hcall with h | h
      · exact hpre call h
      · simp only [List.mem_cons, List.not_mem_nil, or_false] at h
        rcases h with rfl | rfl | rfl <;> simp [Call.isCollectionOp, Call.err]
    · rw [update_update_fails env cfg cmd name c w found repo verifier vc fetched w1 downloaded
        w2 e c1 hn hl hv hf hd hu]
      refine surfaces_of_last _
        ([.ByName name none, .LoadComplete found none] ++ vc ++
          [.Fetch repo verifier none, .Download fetched cmd.ignoreChecksums none])
        (.Update downloaded (some e)) "unable to update: " e (by simp) ?_ rfl rfl
      intro call hcall
      rcases List.mem_append.mp hcall with h | h
      · exact hpre call h
      · simp only [List.mem_cons, List.not_mem_nil, or_false] at h
        rcases h with rfl | rfl <;> simp [Call.isCollectionOp]
  · -- drop
    rcases hn : env.ByName c name with e | repo
    · rw [drop_byName_fails env cmd name c w e hn]
      exact surfaces_of_last _ [] (.ByName name (some e)) "unable to drop: " e rfl (by simp)
        rfl rfl
    by_cases hguard : cmd.force = true ∨ env.ByRemoteRepoSource w repo = []
    · rcases hd : env.Drop c repo with ⟨_ | e, c1⟩
      · rw [drop_succeeds env cmd name c w repo c1 hn hguard hd]
        refine surfaces_of_all_good _ ?_
        cases cmd.force <;> simp [Call.isCollectionOp, Call.err]
      · rw [drop_drop_fails env cmd name c w repo e c1 hn hguard hd]
        refine surfaces_of_last _
          (.ByName name none :: (if cmd.force then [] else [.ByRemoteRepoSource repo]))
          (.Drop repo (some e)) "unable to drop: " e (by simp) ?_ rfl rfl
        cases cmd.force <;> simp [Call.isCollectionOp, Call.err]
    · rw [not_or] at hguard
      rw [drop_refused env cmd name c w repo hn (by simpa using hguard.1) hguard.2]
      exact surfaces_of_all_good _ (by simp [Call.isCollectionOp, Call.err])

/-- C5, as stated, fails: dropping the mirror `wheezy-main`, from which the
snapshot `snap1` was created, without `-force` returns an error whose message
does not contain `wheezy-main`. -/
theorem drop_error_omits_mirror_name :
    (aptlyMirrorDrop memEnv noFlags ["wheezy-main"] oneMirror).1 =
        some "won\x27t delete mirror with snapshots, use -force to override" ∧
      ¬ Contains "won\x27t delete mirror with snapshots, use -force to override"
        "wheezy-main" := by
  constructor
  · rfl
  · decide

/-- C5, amended. When `aptlyMirrorShow`, `aptlyMirrorUpdate` or
`aptlyMirrorDrop` on a mirror name returns a non-nil error, the message is a
fixed introduction followed by the text `e` of the error returned by the last
call made, so it contains the mirror name whenever `e` does; the one exception
is the refusal of `aptlyMirrorDrop` to drop a mirror with snapshots, whose
message is fixed, and there the mirror is named on standard output, by the
line that starts the list of snapshots. -/
theorem error_wraps_failed_step (env : Env X T V S L C W) (cfg : Config) (cmd : Command)
    (name : String) (c : C) (w : W) :
    (∀ msg, (aptlyMirrorShow env cmd [name] (Run.start c w)).1 = some msg →
      ∃ call e, (aptlyMirrorShow env cmd [name] (Run.start c w)).2.calls.getLast? = some call ∧
        call.err = some e ∧ msg = "unable to show: " ++ e ∧
        (Contains e name → Contains msg name)) ∧
    (∀ msg, (aptlyMirrorUpdate env cfg cmd [name] (Run.start c w)).1 = some msg →
      ∃ call e,
        (aptlyMirrorUpdate env cfg cmd [name] (Run.start c w)).2.calls.getLast? = some call ∧
        call.err = some e ∧
        (msg = "unable to update: " ++ e ∨ msg = "unable to initialize GPG verifier: " ++ e) ∧
        (Contains e name → Contains msg name)) ∧
    (∀ msg, (aptlyMirrorDrop env cmd [name] (Run.start c w)).1 = some msg →
      (∃ call e, (aptlyMirrorDrop env cmd [name] (Run.start c w)).2.calls.getLast? = some call ∧
        call.err = some e ∧ msg = "unable to drop: " ++ e ∧
        (Contains e name → Contains msg name)) ∨
      (msg = "won\x27t delete mirror with snapshots, use -force to override" ∧
        ∃ repo, env.ByName c name = .ok repo ∧
          (aptlyMirrorDrop env cmd [name] (Run.start c w)).2.stdout.head? =
            some ("Mirror `" ++ repo.Name ++ "` was used to create following snapshots:\n"))) := by
  rcases hv : getVerifier env cfg cmd with ⟨⟨verifier, ge⟩, vc⟩
  refine ⟨?_, ?_, ?_⟩
  · -- show
    intro msg hmsg
    rcases hn : env.ByName c name with e | found
    · rw [show_byName_fails env cmd name c w e hn] at hmsg ⊢
      cases hmsg
      exact ⟨_, e, rfl, rfl, rfl, contains_of_tail _ e name⟩
    rcases hl : env.LoadComplete c found with e | repo
    · rw [show_loadComplete_fails env cmd name c w found e hn hl] at hmsg ⊢
      cases hmsg
      exact ⟨_, e, rfl, rfl, rfl, contains_of_tail _ e name⟩
    · rw [(show_succeeds env cmd name c w found repo hn hl).1] at hmsg
      cases hmsg
  · -- update
    intro msg hmsg
    rcases hn : env.ByName c name with e | found
    · rw [update_byName_fails env cfg cmd name c w e hn] at hmsg ⊢
      cases hmsg
      exact ⟨_, e, rfl, rfl, Or.inl rfl, contains_of_tail _ e name⟩
    rcases hl : env.LoadComplete c found with e | repo
    · rw [update_loadComplete_fails env cfg cmd name c w found e hn hl] at hmsg ⊢
      cases hmsg
      exact ⟨_, e, rfl, rfl, Or.inl rfl, contains_of_tail _ e name⟩
    rcases ge with _ | e
    swap
    · rw [update_getVerifier_fails env cfg cmd name c w found repo verifier e vc hn hl hv]
        at hmsg ⊢
      cases hmsg
      obtain ⟨done, rfl⟩ := getVerifier_fails_last env cfg cmd verifier e vc hv
      refine ⟨.InitKeyring (some e), e, ?_, rfl, Or.inr rfl, contains_of_tail _ e name⟩
      rw [← List.append_assoc]
      exact List.getLast?_concat _
    rcases hf : env.Fetch w repo verifier with ⟨_ | e, fetched, w1⟩
    swap
    · rw [update_fetch_fails env cfg cmd name c w found repo verifier vc e fetched w1 hn hl hv
        hf] at hmsg ⊢
      cases hmsg
      exact ⟨_, e, List.getLast?_concat _, rfl, Or.inl rfl, contains_of_tail _ e name⟩
    rcases hd : env.Download w1 fetched cmd.ignoreChecksums with ⟨_ | e, downloaded, w2⟩
    swap
    · rw [update_download_fails env cfg cmd name c w found repo verifier vc fetched w1 e
        downloaded w2 hn hl hv hf hd] at hmsg ⊢
      cases hmsg
      refine ⟨.Download fetched cmd.ignoreChecksums (some e), e, ?_, rfl, Or.inl rfl,
        contains_of_tail _ e name⟩
      exact getLast_of_eq _
        ([.ByName name none, .LoadComplete found none] ++ vc ++ [.Fetch repo verifier none]) _
        (by simp)
    rcases hu : env.Update c downloaded with ⟨_ | e, c1⟩
    · rw [update_succeeds env cfg cmd name c w found repo verifier vc fetched w1 downloaded w2
        c1 hn hl hv hf hd hu] at hmsg
      cases hmsg
    · rw [update_update_fails env cfg cmd name c w found repo verifier vc fetched w1 downloaded
        w2 e c1 hn hl hv hf hd hu] at hmsg ⊢
      cases hmsg
      refine ⟨.Update downloaded (some e), e, ?_, rfl, Or.inl rfl, contains_of_tail _ e name⟩
      exact getLast_of_eq _
        ([.ByName name none, .LoadComplete found none] ++ vc ++
          [.Fetch repo verifier none, .Download fetched cmd.ignoreChecksums none]) _
        (by simp)
  · -- drop
    intro msg hmsg
    rcases hn : env.ByName c name with e | repo
    · rw [drop_byName_fails env cmd name c w e hn] at hmsg ⊢
      cases hmsg
      exact Or.inl ⟨_, e, rfl, rfl, rfl, contains_of_tail _ e name⟩
    by_cases hguard : cmd.force = true ∨ env.ByRemoteRepoSource w repo = []
    · rcases hd : env.Drop c repo with ⟨_ | e, c1⟩
      · rw [drop_succeeds env cmd name c w repo c1 hn hguard hd] at hmsg
        cases hmsg
      · rw [drop_drop_fails env cmd name c w repo e c1 hn hguard hd] at hmsg ⊢
        cases hmsg
        refine Or.inl ⟨.Drop repo (some e), e, ?_, rfl, rfl, contains_of_tail _ e name⟩
        cases cmd.force <;> simp
    · rw [not_or] at hguard
      rw [drop_refused env cmd name c w repo hn (by simpa using hguard.1) hguard.2] at hmsg ⊢
      cases hmsg
      exact Or.inr ⟨rfl, repo, rfl, rfl⟩

/-- C9. Starting from the empty `keyRings` accumulator and calling `Set` on
`v1 .. vn` in turn, every `Set` returns `nil`, `Get` returns exactly
`[v1, .., vn]` in call order and `String` is the values joined with `","`. -/
theorem keyRingsFlag_accumulates (vs : List String) :
    (setAll keyRings vs).1.length = vs.length ∧
    (∀ e ∈ (setAll keyRings vs).1, e = none) ∧
    (setAll keyRings vs).2.Get = vs ∧
    (setAll keyRings vs).2.String = ",".intercalate vs := by
  simp [setAll, setAll_fold, keyRings, keyRingsFlag.Get, keyRingsFlag.String]

/-- C7. `getVerifier` returns `(nil, nil)` exactly when verification is
disabled by `Config.GpgDisableVerify` or by `-ignore-signatures`, and then it
calls nothing.  Otherwise it adds exactly the accumulated keyrings, in order,
to a fresh verifier, calls `InitKeyring` on it, and returns that verifier with
no error when `InitKeyring` succeeds and `(nil, err)` when it fails. -/
theorem getVerifier_opt_out (env : Env X T V S L C W) (cfg : Config) (cmd : Command) :
    ((getVerifier env cfg cmd).1 = (none, none) ↔
      (cfg.GpgDisableVerify = true ∨ cmd.ignoreSignatures = true)) ∧
    ((cfg.GpgDisableVerify = true ∨ cmd.ignoreSignatures = true) →
      (getVerifier env cfg cmd).2 = []) ∧
    (¬ (cfg.GpgDisableVerify = true ∨ cmd.ignoreSignatures = true) →
      (getVerifier env cfg cmd).2 =
          cmd.keyRings.Get.map .AddKeyring ++
            [.InitKeyring (env.InitKeyring
              (cmd.keyRings.Get.foldl env.AddKeyring env.NewGpgVerifier)).1] ∧
      ((env.InitKeyring (cmd.keyRings.Get.foldl env.AddKeyring env.NewGpgVerifier)).1 = none →
        (getVerifier env cfg cmd).1 =
          (some (env.InitKeyring
            (cmd.keyRings.Get.foldl env.AddKeyring env.NewGpgVerifier)).2, none)) ∧
      (∀ e, (env.InitKeyring (cmd.keyRings.Get.foldl env.AddKeyring env.NewGpgVerifier)).1 =
          some e → (getVerifier env cfg cmd).1 = (none, some e))) := by
  by_cases h : cfg.GpgDisableVerify = true ∨ cmd.ignoreSignatures = true
  · have hb : (cfg.GpgDisableVerify || cmd.ignoreSignatures) = true := by simpa using h
    simp [getVerifier, hb, h]
  · have hb : (cfg.GpgDisableVerify || cmd.ignoreSignatures) = false := by
      simpa [not_or] using h
    simp only [getVerifier, hb, keyring_loop, keyRingsFlag.Get, h, iff_false, false_implies,
      not_false_eq_true, true_implies, true_and]
    rcases hk : env.InitKeyring (cmd.keyRings.keyRings.foldl env.AddKeyring env.NewGpgVerifier)
      with ⟨_ | e, v⟩ <;> simp [hk]

end Claims

/-! ## The claims on the in-memory world -/

/-- C1 on the in-memory world: `wheezy-main` has the snapshot `snap1`, and
dropping it without `-force` is refused. -/
theorem drop_protection_witness :
    (memEnv.ByName [mkRepo "wheezy-main" 0] "wheezy-main" = .ok (mkRepo "wheezy-main" 0) ∧
      noFlags.force = false ∧
      memEnv.ByRemoteRepoSource [("snap1", "wheezy-main")] (mkRepo "wheezy-main" 0) ≠ []) ∧
    ((aptlyMirrorDrop memEnv noFlags ["wheezy-main"] oneMirror).1 =
        some "won\x27t delete mirror with snapshots, use -force to override" ∧
      (∀ call ∈ (aptlyMirrorDrop memEnv noFlags ["wheezy-main"] oneMirror).2.calls,
        call.isDrop = false) ∧
      (aptlyMirrorDrop memEnv noFlags ["wheezy-main"] oneMirror).2.repoCollection =
        [mkRepo "wheezy-main" 0] ∧
      (aptlyMirrorDrop memEnv noFlags ["wheezy-main"] oneMirror).2.stdout =
        ("Mirror `" ++ (mkRepo "wheezy-main" 0).Name ++
            "` was used to create following snapshots:\n") ::
          (memEnv.ByRemoteRepoSource [("snap1", "wheezy-main")] (mkRepo "wheezy-main" 0)).map
            (fun snapshot => " * " ++ memEnv.SnapshotString snapshot ++ "\n")) :=
  ⟨⟨rfl, rfl, by decide⟩,
    drop_protection memEnv noFlags "wheezy-main" (mkRepo "wheezy-main" 0)
      [mkRepo "wheezy-main" 0] [("snap1", "wheezy-main")] rfl rfl (by decide)⟩

/-- C2 on the in-memory world: with `-force` the same mirror is dropped. -/
theorem drop_override_witness :
    (memEnv.ByName [mkRepo "wheezy-main" 0] "wheezy-main" = .ok (mkRepo "wheezy-main" 0) ∧
      { noFlags with force := true }.force = true) ∧
    ((aptlyMirrorDrop memEnv { noFlags with force := true } ["wheezy-main"] oneMirror).2.calls =
        [.ByName "wheezy-main" none,
          .Drop (mkRepo "wheezy-main" 0)
            (memEnv.Drop [mkRepo "wheezy-main" 0] (mkRepo "wheezy-main" 0)).1] ∧
      (∀ call ∈
          (aptlyMirrorDrop memEnv { noFlags with force := true } ["wheezy-main"] oneMirror).2.calls,
        call.isByRemoteRepoSource = false) ∧
      (aptlyMirrorDrop memEnv { noFlags with force := true } ["wheezy-main"]
          oneMirror).2.repoCollection =
        (memEnv.Drop [mkRepo "wheezy-main" 0] (mkRepo "wheezy-main" 0)).2 ∧
      ((aptlyMirrorDrop memEnv { noFlags with force := true } ["wheezy-main"] oneMirror).1 = none ↔
        (memEnv.Drop [mkRepo "wheezy-main" 0] (mkRepo "wheezy-main" 0)).1 = none)) :=
  ⟨⟨rfl, rfl⟩,
    drop_override memEnv { noFlags with force := true } "wheezy-main" (mkRepo "wheezy-main" 0)
      [mkRepo "wheezy-main" 0] [("snap1", "wheezy-main")] rfl rfl⟩

/-- C3 on the in-memory world: every step of updating `wheezy-main` succeeds,
and the calls are the six expected ones. -/
theorem update_atomicity_witness :
    UpdateSteps memEnv defaultConfig noFlags "wheezy-main" [mkRepo "wheezy-main" 0]
        [("snap1", "wheezy-main")] (mkRepo "wheezy-main" 0) (mkRepo "wheezy-main" 0) (some [])
        (mkRepo "wheezy-main" 0) [("snap1", "wheezy-main")] (mkRepo "wheezy-main" 1)
        [("snap1", "wheezy-main")] ∧
      (aptlyMirrorUpdate memEnv defaultConfig noFlags ["wheezy-main"] oneMirror).2.calls =
        [.ByName "wheezy-main" none, .LoadComplete (mkRepo "wheezy-main" 0) none] ++
          (getVerifier memEnv defaultConfig noFlags).2 ++
          [.Fetch (mkRepo "wheezy-main" 0) (some []) none,
            .Download (mkRepo "wheezy-main" 0) noFlags.ignoreChecksums none,
            .Update (mkRepo "wheezy-main" 1)
              (memEnv.Update [mkRepo "wheezy-main" 0] (mkRepo "wheezy-main" 1)).1] :=
  ⟨⟨rfl, rfl, rfl, rfl, rfl⟩,
    (update_atomicity memEnv defaultConfig noFlags "wheezy-main" [mkRepo "wheezy-main" 0]
      [("snap1", "wheezy-main")]).2 _ _ _ _ _ _ _ ⟨rfl, rfl, rfl, rfl, rfl⟩⟩

/-- C4 on the in-memory world: dropping the unknown mirror `sid` surfaces the
error of `ByName`. -/
theorem collection_errors_surfaced_witness :
    (∃ msg, (aptlyMirrorDrop memEnv noFlags ["sid"] oneMirror).1 = some msg ∧
        Contains msg "mirror with name sid not found") ∧
      ([] : List (Call Unit Nat (List String))).any Call.isCollectionOp = false :=
  (collection_errors_surfaced memEnv defaultConfig noFlags "sid" "" "" []
    [mkRepo "wheezy-main" 0] [("snap1", "wheezy-main")]).2.2.2
    [] (.ByName "sid" (some "mirror with name sid not found")) []
    "mirror with name sid not found" rfl rfl rfl

/-- C5, amended, on the in-memory world: showing the unknown mirror `sid`
returns the error of `ByName` behind `unable to show: `. -/
theorem error_wraps_failed_step_witness :
    ∃ call e, (aptlyMirrorShow memEnv noFlags ["sid"] oneMirror).2.calls.getLast? = some call ∧
      call.err = some e ∧
      "unable to show: mirror with name sid not found" = "unable to show: " ++ e ∧
      (Contains e "sid" → Contains "unable to show: mirror with name sid not found" "sid") :=
  (error_wraps_failed_step memEnv defaultConfig noFlags "sid" [mkRepo "wheezy-main" 0]
    [("snap1", "wheezy-main")]).1 "unable to show: mirror with name sid not found" rfl

/-- C6 on the in-memory world: creating a mirror whose archive URL is `bad`
fails in `Fetch` and adds nothing. -/
theorem create_without_download_witness :
    3 ≤ ["sid-main", "bad", "sid"].length ∧
      ∃ name url distribution components,
        ["sid-main", "bad", "sid"] = name :: url :: distribution :: components ∧
        (aptlyMirrorCreate memEnv defaultConfig noFlags ["sid-main", "bad", "sid"]
          oneMirror).2.calls.any Call.isDownload = false ∧
        ((aptlyMirrorCreate memEnv defaultConfig noFlags ["sid-main", "bad", "sid"]
            oneMirror).2.calls.any Call.isAdd = true →
          ∃ repo verifier fetched w1,
            CreateSteps memEnv defaultConfig noFlags name url distribution components
              [("snap1", "wheezy-main")] repo verifier fetched w1 ∧
            Call.Add fetched (memEnv.Add [mkRepo "wheezy-main" 0] fetched).1 ∈
              (aptlyMirrorCreate memEnv defaultConfig noFlags ["sid-main", "bad", "sid"]
                oneMirror).2.calls) ∧
        (∀ repo verifier e x w1,
          memEnv.NewRemoteRepo name url distribution components defaultConfig.architecturesList
            (defaultConfig.DownloadSourcePackages || noFlags.withSources) = .ok repo →
          (getVerifier memEnv defaultConfig noFlags).1 = (verifier, none) →
          memEnv.Fetch [("snap1", "wheezy-main")] repo verifier = (some e, x, w1) →
            (aptlyMirrorCreate memEnv defaultConfig noFlags ["sid-main", "bad", "sid"]
              oneMirror).1 ≠ none ∧
            (aptlyMirrorCreate memEnv defaultConfig noFlags ["sid-main", "bad", "sid"]
              oneMirror).2.calls.any Call.isAdd = false ∧
            (aptlyMirrorCreate memEnv defaultConfig noFlags ["sid-main", "bad", "sid"]
              oneMirror).2.repoCollection = [mkRepo "wheezy-main" 0]) :=
  ⟨by decide,
    create_without_download memEnv defaultConfig noFlags ["sid-main", "bad", "sid"]
      [mkRepo "wheezy-main" 0] [("snap1", "wheezy-main")] (by decide)⟩

/-- C7 on the in-memory world: with two keyrings and verification enabled,
both are added in order before `InitKeyring`. -/
theorem getVerifier_opt_out_witness :
    ¬ (defaultConfig.GpgDisableVerify = true ∨
        { noFlags with keyRings := (setAll keyRings ["a.gpg", "b.gpg"]).2 }.ignoreSignatures =
          true) ∧
      (getVerifier memEnv defaultConfig
          { noFlags with keyRings := (setAll keyRings ["a.gpg", "b.gpg"]).2 }).2 =
        [.AddKeyring "a.gpg", .AddKeyring "b.gpg", .InitKeyring none] :=
  ⟨by decide,
    ((getVerifier_opt_out memEnv defaultConfig
      { noFlags with keyRings := (setAll keyRings ["a.gpg", "b.gpg"]).2 }).2.2 (by decide)).1⟩

/-- C8 on the in-memory world: `wheezy-main` was never downloaded. -/
theorem show_never_downloaded_guard_witness :
    (memEnv.ByName [mkRepo "wheezy-main" 0] "wheezy-main" = .ok (mkRepo "wheezy-main" 0) ∧
      memEnv.LoadComplete [mkRepo "wheezy-main" 0] (mkRepo "wheezy-main" 0) =
        .ok (mkRepo "wheezy-main" 0) ∧
      memEnv.IsZero (mkRepo "wheezy-main" 0).LastDownloadDate = true) ∧
    ("Last update: never\n" ∈
        (aptlyMirrorShow memEnv { noFlags with withPackages := true } ["wheezy-main"]
          oneMirror).2.stdout ∧
      (aptlyMirrorShow memEnv { noFlags with withPackages := true } ["wheezy-main"]
          oneMirror).2.calls =
        [.ByName "wheezy-main" none, .LoadComplete (mkRepo "wheezy-main" 0) none] ∧
      (∀ call ∈ (aptlyMirrorShow memEnv { noFlags with withPackages := true } ["wheezy-main"]
          oneMirror).2.calls, call.isPackageData = false) ∧
      ({ noFlags with withPackages := true }.withPackages = true →
        (aptlyMirrorShow memEnv { noFlags with withPackages := true } ["wheezy-main"]
            oneMirror).2.stdout.getLast? =
          some "Unable to show package list, mirror hasn\x27t been downloaded yet.\n")) :=
  ⟨⟨rfl, rfl, rfl⟩,
    (show_never_downloaded_guard memEnv { noFlags with withPackages := true } "wheezy-main"
      (mkRepo "wheezy-main" 0) (mkRepo "wheezy-main" 0) [mkRepo "wheezy-main" 0]
      [("snap1", "wheezy-main")] rfl rfl).1 rfl⟩

/-- C10 on the in-memory world: two mirrors are stored and two are visited. -/
theorem mirror_list_sorted_witness :
    ((memEnv.ForEach [mkRepo "wheezy-main" 0, mkRepo "sid-main" 1]).length : Int) =
        memEnv.Len [mkRepo "wheezy-main" 0, mkRepo "sid-main" 1] ∧
      (aptlyMirrorList memEnv [] (Run.start [mkRepo "wheezy-main" 0, mkRepo "sid-main" 1]
        [])).1 = .returned none :=
  ⟨rfl,
    (mirror_list_sorted memEnv [mkRepo "wheezy-main" 0, mkRepo "sid-main" 1] [] rfl).1⟩

end Aptly
